import Mathlib

/-!
Verification development for the duel resolution engine
(`src/duel_core.py`, `src/duel_legacy.py`, `src/combat_loadout.py`).

Modelling conventions:
* Python `int` is `ℤ`; Python `float` is idealized as `ℚ` (all constants in the
  engine are exact decimals, and no computation approaches a rounding tie, so
  this idealization is exact on the inputs that occur).
* Python `round` is banker's rounding (half to even), modelled by `pyRound`.
* Randomness (`random.random()`, `random.randint(..)`) is modelled by passing
  each draw as an explicit parameter.
* Dicts keyed by user id are modelled as total or `Option`-valued functions
  `ℤ → _`; `dict.pop`/`set.discard` write `none`/`false`.
* The `pos` dict always holds exactly the two participants' coordinates after
  `__post_init__`, so it is modelled by the two fields `posA`, `posB`.
* The animation-frame prefix added by `DuelState.push` (a global UI spinner)
  is presentation-only and elided: `push` and `add_raw` coincide here.
* `touch()` (wall-clock bookkeeping) is elided.
* External providers (loadout kit, player stats, grenade possession) are
  passed as explicit parameters, mirroring the read-only snapshot semantics.
-/

namespace Lowlife

/-- Source `iclamp`: `max(lo, min(hi, v))` on ints. -/
def iclamp (v lo hi : ℤ) : ℤ := max lo (min hi v)

/-- Source `clamp`: `max(lo, min(hi, v))` on floats, idealized over `ℚ`. -/
def clamp (v lo hi : ℚ) : ℚ := max lo (min hi v)

/-- Python `round` on a real value: round half to even (banker's rounding). -/
def pyRound (q : ℚ) : ℤ :=
  let f := ⌊q⌋
  let r := q - f
  if r < 1/2 then f
  else if 1/2 < r then f + 1
  else if f % 2 = 0 then f else f + 1

/-- Dict write: `d[k] = v`. -/
def upd {α : Type} (f : ℤ → α) (k : ℤ) (v : α) : ℤ → α :=
  fun x => if x = k then v else f x

/-- Source `RangeGate` enum. -/
inductive RangeGate
  | HANDS
  | CLOSE
  | MID
  | FAR
  | VERYFAR
deriving DecidableEq

/-- Source `RANGE_ORDER`. -/
def RANGE_ORDER : List RangeGate := [.HANDS, .CLOSE, .MID, .FAR, .VERYFAR]

/-- Source `rg_to_loadout_range`. -/
def rg_to_loadout_range (rg : RangeGate) : String :=
  if rg = .HANDS ∨ rg = .CLOSE then "Close"
  else if rg = .MID then "Mid"
  else "Far"

/-- Source `_RANGE_ACC_MOD` with the `.get(range_state, 0)` default. -/
def rangeAccMod (range_state : String) : ℤ :=
  if range_state = "Close" then 10
  else if range_state = "Near" then 0
  else if range_state = "Mid" then -10
  else if range_state = "Far" then -20
  else if range_state = "Out-of-Range" then -999
  else 0

/-- Weapon-mod dict (`mods.get("accuracy", 0)`, `mods.get("damage", 0)`). -/
structure Mods where
  accuracy : ℤ
  damage : ℤ
deriving DecidableEq

/-- `combat_loadout.WeaponProfile` (the fields read by the engine). -/
structure WeaponProfile where
  name : String
  wclass : String
  ranges : List String
  base_accuracy : ℤ
  base_damage : ℤ
deriving DecidableEq

/-- The combat kit dict built by `get_combatkit` (the fields the engine reads). -/
structure CombatKit where
  primary : Option WeaponProfile
  secondary : Option WeaponProfile
  preferred_slot : String
  mods : Mods
deriving DecidableEq

/-- A `grenades_pending` entry `{"from": ..., "damage": ...}`. -/
structure PendingGrenade where
  thrower : ℤ
  damage : ℤ
deriving DecidableEq

/-- A `last_hit` entry `{"by": ..., "type": ..., "weapon": ...}`. -/
structure LastHit where
  hitBy : ℤ
  kind : String
  weapon : String
deriving DecidableEq

/-- The slice of `load_player_stats` the attack/grenade paths read. -/
structure Stats where
  combat : ℚ
  fitness : ℚ
  armor : ℚ
deriving DecidableEq

/-- Source `Combatant`. -/
structure Combatant where
  user_id : ℤ
  name : String
  hp : ℤ
  is_ai : Bool
deriving DecidableEq

/-- Source `kit.get(slot)` for the two weapon slots. -/
def kitSlot (kit : CombatKit) (slot : String) : Option WeaponProfile :=
  if slot = "primary" then kit.primary
  else if slot = "secondary" then kit.secondary
  else none

/-- Source `pick_weapon_for_range`: preferred slot first, then the other;
first weapon whose range list contains the label wins. -/
def pick_weapon_for_range (range_state : String) (kit : CombatKit) :
    Option (String × WeaponProfile) :=
  let pref := kit.preferred_slot
  let cand := [pref, if pref = "secondary" then "primary" else "secondary"]
  cand.findSome? fun slot =>
    match kitSlot kit slot with
    | some wp => if range_state ∈ wp.ranges then some (slot, wp) else none
    | none => none

/-- The implicit unarmed fallback profile built inline in
`compute_attack_numbers` (a `SimpleNamespace` without a range list). -/
def fistsProfile : WeaponProfile :=
  { name := "Fists", wclass := "melee", ranges := [], base_accuracy := 70, base_damage := 6 }

/-- Result dict of `compute_attack_numbers`. -/
inductive AttackCalc
  | notReady (reason : String) (message : String) (mods : Mods)
  | ready (slot : String) (weapon : WeaponProfile) (accuracy : ℤ) (damage : ℤ) (mods : Mods)
deriving DecidableEq

/-- Source `compute_attack_numbers` with the external kit passed in. -/
def compute_attack_numbers (kit : CombatKit) (range_state : String) : AttackCalc :=
  match pick_weapon_for_range range_state kit with
  | none =>
    if range_state ≠ "Close" then
      .notReady "no_weapon_too_far"
        (s!"No viable weapon at {range_state} range. You're unarmed — advance to **Close** to use **Fists**.")
        kit.mods
    else
      let wp := fistsProfile
      let acc := iclamp (wp.base_accuracy + kit.mods.accuracy + rangeAccMod range_state) 5 95
      let dmg := max 1 (wp.base_damage + kit.mods.damage)
      .ready "unarmed" wp acc dmg kit.mods
  | some (slot, wp) =>
    let acc := iclamp (wp.base_accuracy + kit.mods.accuracy + rangeAccMod range_state) 5 95
    let dmg := max 1 (wp.base_damage + kit.mods.damage)
    .ready slot wp acc dmg kit.mods

/-- Source `_ARMOR_FACTORS` with the `.get(kind, 0.70)` default. -/
def armorFactor (kind : String) : ℚ :=
  if kind = "melee" then 60/100
  else if kind = "small_ranged" then 80/100
  else if kind = "large_ranged" then 80/100
  else if kind = "ranged" then 80/100
  else if kind = "grenade" then 50/100
  else if kind = "none" then 0
  else 70/100

/-- Source `apply_armor_reduction` (the defender's armor stat passed in). -/
def apply_armor_reduction (dfnArmor : ℚ) (dmg : ℤ) (kind : String) : ℤ × ℤ :=
  let raw := pyRound (dfnArmor * armorFactor kind)
  let mit := iclamp raw 0 (max 0 (dmg - 1))
  (dmg - mit, mit)

/-- Source `armor_kind_from_wclass`. -/
def armor_kind_from_wclass (wcls : String) : String :=
  if wcls = "melee" then "melee"
  else if wcls = "pistol" ∨ wcls = "smg" then "small_ranged"
  else if wcls = "shotgun" ∨ wcls = "rifle" then "large_ranged"
  else "ranged"

/-- Source `DuelState` (the fields exercised by the verified paths). -/
structure DuelState where
  a : Combatant
  b : Combatant
  range_idx : ℤ
  vis_segments : ℤ
  posA : ℤ
  posB : ℤ
  last_mover : Option ℤ
  turn_id : ℕ
  log_lines : List String
  full_log_lines : List String
  active : Bool
  round_no : ℤ
  grappling : Bool
  positioning : ℤ → ℤ
  choking : Option (ℤ × ℤ)
  breath : ℤ → Option ℤ
  bloodflow : ℤ → Option ℤ
  unconscious : ℤ → Bool
  clearing_stacks : ℤ → Option ℤ
  clearing_expiries : ℤ → Option (List ℤ)
  turn_tick : ℤ
  hidden : ℤ → Bool
  in_cover : ℤ → Bool
  cover_pct : ℤ → Option ℤ
  grenades_pending : ℤ → Option PendingGrenade
  skip_turn_for : ℤ → Bool
  last_hit : ℤ → Option LastHit
  grapple_just_started : Bool
  grapple_starter_id : Option ℤ
  grapple_flip : ℕ
  finisher : Option (ℤ × ℤ)
  trails : ℤ → ℤ → Bool
  cover_line : ℤ → Option String

/-- Source `rngate`: `RANGE_ORDER[self.range_idx]` (index always kept in
bounds by the clamping writes). -/
def rngate (s : DuelState) : RangeGate := RANGE_ORDER.getD s.range_idx.toNat .HANDS

/-- Source `current()`. -/
def current (s : DuelState) : Combatant := if s.turn_id = 0 then s.a else s.b

/-- Source `other()`. -/
def other (s : DuelState) : Combatant := if s.turn_id = 0 then s.b else s.a

/-- Select combatant by side (`true` = `a`). -/
def combatantAt (s : DuelState) (isA : Bool) : Combatant := if isA then s.a else s.b

/-- Write one combatant's hp by side. -/
def setHp (s : DuelState) (isA : Bool) (hp : ℤ) : DuelState :=
  if isA then { s with a := { s.a with hp := hp } } else { s with b := { s.b with hp := hp } }

/-- `self.pos.get(uid, ...)` for a participant (keys always present). -/
def posOf (s : DuelState) (uid : ℤ) : ℤ :=
  if uid = s.a.user_id then s.posA else if uid = s.b.user_id then s.posB else 0

/-- The 6-line visible-window trim applied after each log append. -/
def trimVisible (l : List String) : List String :=
  if 6 < l.length then l.drop (l.length - 6) else l

/-- Source `add_raw` (append to both logs, trim the visible window). -/
def add_raw (s : DuelState) (line : String) : DuelState :=
  { s with full_log_lines := s.full_log_lines ++ [line],
           log_lines := trimVisible (s.log_lines ++ [line]) }

/-- Source `push`; the global spinner-frame prefix is presentation-only and
elided, so `push` coincides with `add_raw` here. -/
def push (s : DuelState) (line : String) : DuelState := add_raw s line

/-- Source `record_hit`. -/
def record_hit (s : DuelState) (attacker_id target_id : ℤ) (kind weapon : String) : DuelState :=
  { s with last_hit := upd s.last_hit target_id (some ⟨attacker_id, kind, weapon⟩) }

/-- Source `is_draw`. -/
def is_draw (s : DuelState) : Bool :=
  (decide (s.a.hp ≤ 0) || s.unconscious s.a.user_id) &&
  (decide (s.b.hp ≤ 0) || s.unconscious s.b.user_id)

/-- Source `winner`: hit-point defeat first, then consciousness defeat. -/
def winner (s : DuelState) : Option Combatant :=
  if s.a.hp ≤ 0 ∧ 0 < s.b.hp then some s.b
  else if s.b.hp ≤ 0 ∧ 0 < s.a.hp then some s.a
  else if s.unconscious s.a.user_id = true ∧ s.unconscious s.b.user_id = false then some s.b
  else if s.unconscious s.b.user_id = true ∧ s.unconscious s.a.user_id = false then some s.a
  else none

/-- Source `can_grapple`. -/
def can_grapple (s : DuelState) : Bool :=
  !s.grappling && decide (rngate s = .HANDS)

/-- Source `_fists_too_far`: fists disallowed at anything but Hands On /
grappling. -/
def _fists_too_far (s : DuelState) : Bool :=
  !(s.grappling || can_grapple s)

/-- Source `_target_vis_gap`. -/
def _target_vis_gap (s : DuelState) : ℤ :=
  let idxR : ℚ := (s.range_idx : ℚ) / (((RANGE_ORDER.length : ℤ) - 1 : ℤ) : ℚ)
  iclamp (pyRound (idxR * (((s.vis_segments - 1 : ℤ) : ℚ)))) 3 (s.vis_segments - 3)

/-- Source `_sync_visual_positions`. -/
def _sync_visual_positions (s : DuelState) (mover_id : Option ℤ) : DuelState :=
  if s.grappling then s
  else
    let a_id := s.a.user_id
    let b_id := s.b.user_id
    let target_gap := _target_vis_gap s
    let pos_a := s.posA
    let pos_b := s.posB
    let pos_a := if pos_b ≤ pos_a then max 0 (pos_b - 2) else pos_a
    let cur_gap := |pos_b - pos_a|
    if cur_gap = target_gap then { s with posA := pos_a, posB := pos_b }
    else
      let pq :=
        if mover_id = some a_id then
          (iclamp (pos_b - target_gap) 0 (s.vis_segments - 1), pos_b)
        else if mover_id = some b_id then
          (pos_a, iclamp (pos_a + target_gap) 0 (s.vis_segments - 1))
        else
          let left := max 0 ((s.vis_segments - target_gap).fdiv 2 - 1)
          (left, iclamp (left + target_gap) 0 (s.vis_segments - 1))
      let pos_a := pq.1
      let pos_b := pq.2
      let pos_a := if pos_b ≤ pos_a then max 0 (pos_b - 1) else pos_a
      { s with posA := pos_a, posB := pos_b }

/-- Source `_check_grapple_transition` (the `prev`/`actor_id` arguments are
unused by the source body as well). -/
def _check_grapple_transition (s : DuelState) (_prev now : RangeGate)
    (_actor_id : Option ℤ) : DuelState :=
  let s1 :=
    if s.grappling = true ∧ now ≠ RangeGate.HANDS then
      let t := add_raw s "🧷 Grappling broken. Combat resumes."
      { t with grappling := false, grapple_just_started := false, grapple_starter_id := none }
    else s
  if s1.grappling = false ∧ s1.choking.isSome = true then
    let t := add_raw s1 "🫁 Choke is released as distance opens."
    { t with choking := none, breath := fun _ => none, bloodflow := fun _ => none }
  else s1

/-- Source `step_range`. -/
def step_range (s : DuelState) (delta : ℤ) (actor_id : Option ℤ) : DuelState :=
  let prev := rngate s
  let s1 := { s with range_idx := iclamp (s.range_idx + delta) 0 ((RANGE_ORDER.length : ℤ) - 1),
                     last_mover := actor_id }
  let s2 := _sync_visual_positions s1 actor_id
  _check_grapple_transition s2 prev (rngate s2) actor_id

/-- The `me_pos` update steps of `micro_move`: move toward (capped one short
of the opponent) or away (clamped to the line), then reassert the ordering
clamp. -/
def movedPos (vis me them steps : ℤ) (meLeft : Bool) : ℤ :=
  let mp :=
    if 0 ≤ steps then
      if meLeft then min (them - 1) (me + steps)
      else max (them + 1) (me - steps)
    else
      if meLeft then max 0 (me - |steps|)
      else min (vis - 1) (me + |steps|)
  if meLeft then min mp (them - 1) else max mp (them + 1)

/-- Source `micro_move`. -/
def micro_move (s : DuelState) (actor_id toward_steps : ℤ) : DuelState :=
  if s.grappling then s
  else
    let a_id := s.a.user_id
    let b_id := s.b.user_id
    let pos_a := s.posA
    let pos_b := s.posB
    if actor_id ≠ a_id ∧ actor_id ≠ b_id then s
    else
      let me_left : Bool :=
        decide ((pos_a < pos_b ∧ actor_id = a_id) ∨ (pos_b < pos_a ∧ actor_id = b_id))
      let me_pos := if actor_id = a_id then pos_a else pos_b
      let them_pos := if actor_id = a_id then pos_b else pos_a
      let me_pos := movedPos s.vis_segments me_pos them_pos toward_steps me_left
      let pos_a := if actor_id = a_id then me_pos else pos_a
      let pos_b := if actor_id = a_id then pos_b else me_pos
      let gap := |pos_b - pos_a|
      let newIdx :=
        iclamp (pyRound ((gap : ℚ) / ((max 1 (s.vis_segments - 1) : ℤ) : ℚ) *
          (((RANGE_ORDER.length : ℤ) - 1 : ℤ) : ℚ))) 0 ((RANGE_ORDER.length : ℤ) - 1)
      let prev := rngate s
      let s1 := { s with posA := pos_a, posB := pos_b, range_idx := newIdx }
      _check_grapple_transition s1 prev (rngate s1) (some actor_id)

/-- Source `begin_grapple`. -/
def begin_grapple (s : DuelState) (starter_id : ℤ) : DuelState :=
  if can_grapple s = false then s
  else
    let s1 := { s with grappling := true, grapple_just_started := true,
                       grapple_starter_id := some starter_id, grapple_flip := 0 }
    let d : ℤ := 2
    let left := max 0 ((s1.vis_segments - d).fdiv 2 - 1)
    let s2 := { s1 with posA := left, posB := min (s1.vis_segments - 1) (left + d),
                        turn_id := if starter_id = s1.a.user_id then 0 else 1 }
    add_raw s2 "🤼 Grappling engaged!"

/-- Source `_mark_trail`. -/
def _mark_trail (s : DuelState) (uid : ℤ) : DuelState :=
  let idx := iclamp (posOf s uid) 0 (s.vis_segments - 1)
  { s with trails := fun u i => if u = uid ∧ i = idx then true else s.trails u i }

/-- Source `COVER_SET`. -/
def COVER_SET : List String := ["🚪", "🚧", "🛢️"]

/-- One iteration of the loop body of `_update_cover_flags`
(`COVER_PCT_DEFAULT = 40`). -/
def _update_cover_one (s : DuelState) (uid : ℤ) : DuelState :=
  let idx := iclamp (posOf s uid) 0 (s.vis_segments - 1)
  match s.cover_line idx with
  | some tok =>
    if tok ∈ COVER_SET then
      { s with in_cover := upd s.in_cover uid true, cover_pct := upd s.cover_pct uid (some 40) }
    else
      { s with in_cover := upd s.in_cover uid false, cover_pct := upd s.cover_pct uid none }
  | none =>
    { s with in_cover := upd s.in_cover uid false, cover_pct := upd s.cover_pct uid none }

/-- Source `_update_cover_flags` (loops over `a` then `b`). -/
def _update_cover_flags (s : DuelState) : DuelState :=
  _update_cover_one (_update_cover_one s s.a.user_id) s.b.user_id

/-- Per-combatant body of `_expire_clearing`, acting on the
`(clearing_expiries[uid], clearing_stacks[uid])` pair at the given tick. -/
def expireOne (e : Option (List ℤ)) (st : Option ℤ) (tick : ℤ) :
    Option (List ℤ) × Option ℤ :=
  let exps := e.getD []
  if exps = [] then (e, st)
  else
    let kept := exps.filter (fun t => decide (tick < t))
    let removed : ℤ := exps.length - kept.length
    let st1 := if 0 < removed then some (max 0 (st.getD 0 - removed)) else st
    if kept ≠ [] then (some kept, st1)
    else (none, if st1.getD 0 = 0 then none else st1)

/-- `_expire_clearing`'s loop body for one uid. -/
def _expire_uid (s : DuelState) (uid : ℤ) : DuelState :=
  let r := expireOne (s.clearing_expiries uid) (s.clearing_stacks uid) s.turn_tick
  { s with clearing_expiries := upd s.clearing_expiries uid r.1,
           clearing_stacks := upd s.clearing_stacks uid r.2 }

/-- Source `_expire_clearing` (loops over `a` then `b`). -/
def _expire_clearing (s : DuelState) : DuelState :=
  _expire_uid (_expire_uid s s.a.user_id) s.b.user_id

/-- Source `_apply_choke_tick` with the two `randint` draws passed in
(ambient ranges `[6,10]` and `[3,7]` at the call sites). -/
def _apply_choke_tick (s : DuelState) (breathDraw bloodDraw : ℤ) : DuelState :=
  match s.choking with
  | none => s
  | some (choker, target) =>
    let newBreath := iclamp ((s.breath target).getD 50 - breathDraw) 0 100
    let newFlow := iclamp ((s.bloodflow target).getD 50 - bloodDraw) 0 100
    let s1 := { s with breath := upd s.breath target (some newBreath),
                       bloodflow := upd s.bloodflow target (some newFlow) }
    if newBreath ≤ 0 ∨ newFlow ≤ 0 then
      let loser := if s1.a.user_id = target then s1.a else s1.b
      let s2 := { s1 with unconscious := upd s1.unconscious target true,
                          last_hit := upd s1.last_hit target (some ⟨choker, "strangled", ""⟩) }
      add_raw s2 (s!"😵‍💫 {loser.name} passes out from the choke!")
    else s1

/-- The owner flip / round bump / tick bump triple of `end_turn` (performed
once normally, once more on a consumed skip flag). -/
def schedFlip (x : DuelState) : DuelState :=
  let x1 := { x with turn_id := x.turn_id ^^^ 1 }
  let x2 := if x1.turn_id = 0 then { x1 with round_no := x1.round_no + 1 } else x1
  { x2 with turn_tick := x2.turn_tick + 1 }

/-- The scheduler steps of `end_turn`: flip the owner, bump round and tick,
flip the grapple bit, and repeat the flip/round/tick once if the new active
combatant is flagged to skip (consuming the flag and logging it). -/
def endTurnSched (s : DuelState) : DuelState :=
  let s1 := schedFlip s
  let s1 := if s1.grappling then { s1 with grapple_flip := s1.grapple_flip ^^^ 1 } else s1
  let cur := current s1
  if s1.skip_turn_for cur.user_id then
    let t := { s1 with skip_turn_for := upd s1.skip_turn_for cur.user_id false }
    let t := add_raw t (s!"😵 {cur.name} is staggered and loses a turn.")
    schedFlip t
  else s1

/-- Source `end_turn` (the ambient choke-tick draws passed in): the
scheduler steps, then at most one choke tick, then clearing expiry. -/
def end_turn (s : DuelState) (breathDraw bloodDraw : ℤ) : DuelState :=
  _expire_clearing (_apply_choke_tick (endTurnSched s) breathDraw bloodDraw)

/-- Source `_grenade_hit_chance` (fitness stats passed in). -/
def _grenade_hit_chance (s : DuelState) (throwerFit targetFit : ℚ) : ℚ :=
  clamp ((80/100 : ℚ) - (s.range_idx : ℚ) * (12/100) + (1/100) * (throwerFit - targetFit))
    (10/100) (95/100)

/-- Source `_resolve_pending_grenade` for the combatant on side `isA`
(the acting combatant's armor stat passed in; the HUD update is UI-only). -/
def _resolve_pending_grenade (s : DuelState) (isA : Bool) (dfnArmor : ℚ) : DuelState :=
  let acted := combatantAt s isA
  match s.grenades_pending acted.user_id with
  | none => s
  | some pend =>
    let fm := apply_armor_reduction dfnArmor pend.damage "grenade"
    let s1 := setHp s isA (max 0 (acted.hp - fm.1))
    let s2 := record_hit s1 pend.thrower acted.user_id "grenade" "grenade"
    let s3 := push s2 (s!"💥 Grenade detonates on {acted.name}: **{fm.1}** damage" ++
      (if 0 < fm.2 then s!" (−{fm.2} armor)" else "") ++ ".")
    { s3 with grenades_pending := upd s3.grenades_pending acted.user_id none }

/-- Source `_attack_once` (kit/stats snapshots and the hit roll passed in). -/
def _attack_once (s : DuelState) (kit : CombatKit) (atk dfn : Stats) (roll : ℚ) : DuelState :=
  let attacker := current s
  let defender := other s
  let rng_name := rg_to_loadout_range (rngate s)
  match compute_attack_numbers kit rng_name with
  | .notReady _ message _ => push s message
  | .ready _ wp acc dmg _ =>
    if wp.name = "Fists" ∧ _fists_too_far s = true then
      push s (s!"{attacker.name} is too far away to **swing** their fists.")
    else
      let p := (acc : ℚ) / 100
      let p := if s.in_cover defender.user_id then
          p * (1 - ((s.cover_pct defender.user_id).getD 0 : ℚ) / 100) else p
      let p := if s.hidden defender.user_id then 0 else p
      let p := p + (15/1000) * (atk.combat - dfn.combat) + (10/1000) * (atk.fitness - dfn.fitness)
      let p := clamp p 0 (98/100)
      if roll ≤ p then
        let kind := armor_kind_from_wclass wp.wclass
        let fm := apply_armor_reduction dfn.armor dmg kind
        let s1 := setHp s (decide (s.turn_id ≠ 0)) (max 0 (defender.hp - fm.1))
        let s2 :=
          if wp.name = "Fists" then
            push s1 (s!"{attacker.name} **swings** and hits {defender.name} for **{fm.1}**" ++
              (if 0 < fm.2 then s!" (−{fm.2} armor)" else "") ++ ".")
          else
            push s1 (s!"{attacker.name} hits {defender.name} with **{wp.name}** for **{fm.1}**" ++
              (if 0 < fm.2 then s!" (−{fm.2} armor)" else "") ++ ".")
        record_hit s2 attacker.user_id defender.user_id "shot" wp.name
      else
        if wp.name = "Fists" then push s (s!"{attacker.name} **swings** and **misses**.")
        else push s (s!"{attacker.name} fires and **misses**.")

/-- `DuelMainView.btn_advance` state effect, acting combatant = `current`
(the `_is_my_turn` guard reduces to the `active` check). -/
def btn_advance (s : DuelState) (dfnArmor : ℚ) (steps bd fd : ℤ) : DuelState :=
  if s.active = false then s
  else
    let s1 := _resolve_pending_grenade s (decide (s.turn_id = 0)) dfnArmor
    let s2 := micro_move s1 (current s1).user_id steps
    let s3 := _mark_trail s2 (current s2).user_id
    let s4 := _update_cover_flags s3
    let s5 := push s4 (s!"{(current s4).name} advances **{steps} meters**.")
    end_turn s5 bd fd

/-- `DuelMainView.btn_disengage` state effect (`steps = -k`, `k ∈ [1,3]`). -/
def btn_disengage (s : DuelState) (dfnArmor : ℚ) (k bd fd : ℤ) : DuelState :=
  if s.active = false then s
  else
    let s1 := _resolve_pending_grenade s (decide (s.turn_id = 0)) dfnArmor
    let s2 := micro_move s1 (current s1).user_id (-k)
    let s3 := _mark_trail s2 (current s2).user_id
    let s4 := _update_cover_flags s3
    let s5 := push s4 (s!"{(current s4).name} retreats **{k} meters**.")
    end_turn s5 bd fd

/-- `DuelMainView.btn_attack` state effect. -/
def btn_attack (s : DuelState) (dfnArmor : ℚ) (kit : CombatKit) (atk dfn : Stats)
    (roll : ℚ) (bd fd : ℤ) : DuelState :=
  if s.active = false then s
  else
    let s1 := _resolve_pending_grenade s (decide (s.turn_id = 0)) dfnArmor
    let s2 := _attack_once s1 kit atk dfn roll
    end_turn s2 bd fd

/-- `DuelMainView.btn_grenade` state effect (`hasGrenade` mirrors
`_can_throw_grenade`; `dmg ∈ [30,40]`). -/
def btn_grenade (s : DuelState) (hasGrenade : Bool) (roll : ℚ) (dmg : ℤ)
    (throwerFit targetFit : ℚ) (bd fd : ℤ) : DuelState :=
  if s.active = false then s
  else
    let thrower := current s
    let target := other s
    let s1 :=
      if hasGrenade = false then
        push s (s!"{thrower.name} fumbles for a grenade, but has none.")
      else
        let p := _grenade_hit_chance s throwerFit targetFit
        if roll ≤ p then
          let pend : PendingGrenade := ⟨thrower.user_id, dmg⟩
          let t := { s with grenades_pending := upd s.grenades_pending target.user_id (some pend) }
          push t (s!"💣 {thrower.name} lobs a grenade! It lands near {target.name} and will detonate at the start of their turn.")
        else
          push s (s!"💣 {thrower.name} throws a grenade but it **misses** the mark.")
    end_turn s1 bd fd

/-- `DuelMainView.btn_grapple` state effect. -/
def btn_grapple (s : DuelState) : DuelState :=
  if s.active = false then s
  else if can_grapple s = false then s
  else begin_grapple s (current s).user_id

/-- `GrappleView._is_my_turn` phase guard (actor = current combatant). -/
def grappleGuard (s : DuelState) : Bool :=
  s.active && s.grappling && !s.choking.isSome

/-- `GrappleView.btn_wrestle` state effect (`dmg ∈ [1,2]`, `posSwing` is the
50/50 positioning draw). -/
def btn_wrestle (s : DuelState) (dmg : ℤ) (posSwing : Bool) (bd fd : ℤ) : DuelState :=
  if grappleGuard s = false then s
  else
    let me := current s
    let foe := other s
    let s1 := setHp s (decide (s.turn_id ≠ 0)) (max 0 (foe.hp - dmg))
    let s2 :=
      if posSwing then
        let p1 := upd s1.positioning me.user_id (iclamp (s1.positioning me.user_id + 10) 0 100)
        let p2 := upd p1 foe.user_id (iclamp (p1 foe.user_id - 10) 0 100)
        { s1 with positioning := p2 }
      else s1
    let swing := if posSwing then " Position improved." else ""
    let s3 := push s2 (s!"{me.name} **wrestles** {foe.name} for **{dmg}**." ++ swing)
    let s4 := record_hit s3 me.user_id foe.user_id "wrestle" ""
    end_turn s4 bd fd

/-- `GrappleView.btn_punch` state effect (`dmg ∈ [1,5]`). -/
def btn_punch (s : DuelState) (dmg : ℤ) (bd fd : ℤ) : DuelState :=
  if grappleGuard s = false then s
  else
    let me := current s
    let foe := other s
    let s1 := setHp s (decide (s.turn_id ≠ 0)) (max 0 (foe.hp - dmg))
    let s2 := push s1 (s!"{me.name} **punches** {foe.name} for **{dmg}**.")
    let s3 := record_hit s2 me.user_id foe.user_id "punch" "Fists"
    end_turn s3 bd fd

/-- `GrappleView.btn_breakfree` state effect. -/
def btn_breakfree (s : DuelState) (roll : ℚ) (bd fd : ℤ) : DuelState :=
  if grappleGuard s = false then s
  else
    let me := current s
    let foe := other s
    let my_pos := s.positioning me.user_id
    let their_pos := s.positioning foe.user_id
    let p := clamp ((40/100 : ℚ) + ((my_pos : ℚ) - (their_pos : ℚ)) / 200) (10/100) (90/100)
    let s1 :=
      if roll ≤ p then
        push { s with grappling := false, choking := none }
          (s!"🧷 {me.name} **breaks free** from the grapple!")
      else
        let p1 := upd s.positioning me.user_id (iclamp (my_pos - 5) 0 100)
        let p2 := upd p1 foe.user_id (iclamp (their_pos + 5) 0 100)
        push { s with positioning := p2 } (s!"{me.name} tries to break free but **fails**.")
    end_turn s1 bd fd

/-- `GrappleView.btn_choke` state effect. -/
def btn_choke (s : DuelState) (roll : ℚ) (bd fd : ℤ) : DuelState :=
  if grappleGuard s = false then s
  else
    let me := current s
    let foe := other s
    let my_pos := s.positioning me.user_id
    let their_pos := s.positioning foe.user_id
    let p := clamp ((50/100 : ℚ) + ((my_pos : ℚ) - (their_pos : ℚ)) / 200) (20/100) (85/100)
    let s1 :=
      if roll ≤ p then
        let t := { s with choking := some (me.user_id, foe.user_id),
                          breath := upd s.breath foe.user_id (some ((s.breath foe.user_id).getD 50)),
                          bloodflow := upd s.bloodflow foe.user_id (some ((s.bloodflow foe.user_id).getD 50)) }
        push t (s!"🫵 {me.name} secures a **choke** on {foe.name}!")
      else push s (s!"{me.name} reaches for a choke but **fails**.")
    end_turn s1 bd fd

/-- `ChokeView._is_my_turn` phase guard (actor = current combatant). -/
def chokeGuard (s : DuelState) : Bool :=
  s.active &&
    (match s.choking with
     | some (c, _) => decide (c = (current s).user_id)
     | none => false)

/-- `ChokeView.btn_squeeze` state effect (`sd ∈ [8,12]`, `fdraw ∈ [4,8]` are
the active-squeeze draws; `bd`, `fd` are the ambient draws of the trailing
`end_turn`). -/
def btn_squeeze (s : DuelState) (sd fdraw bd fd : ℤ) : DuelState :=
  if chokeGuard s = false then s
  else
    match s.choking with
    | none => s
    | some (choker, target) =>
      let newBreath := iclamp ((s.breath target).getD 50 - sd) 0 100
      let newFlow := iclamp ((s.bloodflow target).getD 50 - fdraw) 0 100
      let s1 := { s with breath := upd s.breath target (some newBreath),
                         bloodflow := upd s.bloodflow target (some newFlow) }
      let s2 := push s1 (s!"🫀 {(current s1).name} **tightens the choke**.")
      let s3 :=
        if newBreath ≤ 0 ∨ newFlow ≤ 0 then
          let t1 := { s2 with unconscious := upd s2.unconscious target true }
          let t2 := record_hit t1 choker target "strangled" ""
          match winner t2 with
          | some w =>
            let t3 := { t2 with finisher := some (w.user_id, target) }
            let msg := "☠️ Your opponent is **unconscious**. Choose their fate."
            if t3.log_lines = [] ∨ t3.log_lines.getLast? ≠ some msg then add_raw t3 msg else t3
          | none => t2
        else s2
      end_turn s3 bd fd

/-- `ChokeView.btn_letgo` state effect. -/
def btn_letgo (s : DuelState) (bd fd : ℤ) : DuelState :=
  if chokeGuard s = false then s
  else
    let s1 := push { s with choking := none }
      (s!"🫁 {(current s).name} **releases the choke**.")
    end_turn s1 bd fd

/-- The ranged/default branch of `_maybe_ai_take_turn` (reached when the AI
is the current combatant, the duel is active, no finisher is pending, the
pending grenade has been resolved, and neither choke nor grapple phase is
on). -/
def _ai_ranged_phase (s : DuelState) (kit : CombatKit) (atk dfn : Stats)
    (roll : ℚ) (step bd fd : ℤ) : DuelState :=
  let ai := current s
  let foe := other s
  let rng_name := rg_to_loadout_range (rngate s)
  let advanceFallback : DuelState → DuelState := fun st =>
    let st1 := micro_move st ai.user_id step
    let st2 := _mark_trail st1 ai.user_id
    let st3 := _update_cover_flags st2
    push st3 (s!"🤖 {ai.name} advances **{step} meters**.")
  match compute_attack_numbers kit rng_name with
  | .notReady _ _ _ => end_turn (advanceFallback s) bd fd
  | .ready _ wp acc dmg _ =>
    if wp.name = "Fists" ∧ _fists_too_far s = true then
      end_turn (advanceFallback s) bd fd
    else
      let p := (acc : ℚ) / 100
      let p := if s.in_cover foe.user_id then
          p * (1 - ((s.cover_pct foe.user_id).getD 0 : ℚ) / 100) else p
      let p := if s.hidden foe.user_id then 0 else p
      let p := p + (15/1000) * (atk.combat - dfn.combat) + (10/1000) * (atk.fitness - dfn.fitness)
      let p := clamp p 0 (98/100)
      let s1 :=
        if roll ≤ p then
          let kind := armor_kind_from_wclass wp.wclass
          let fm := apply_armor_reduction dfn.armor dmg kind
          let t1 := setHp s (decide (s.turn_id ≠ 0)) (max 0 (foe.hp - fm.1))
          let t2 :=
            if wp.name = "Fists" then
              push t1 (s!"🤖 {ai.name} **swings** and hits {foe.name} for **{fm.1}**" ++
                (if 0 < fm.2 then s!" (−{fm.2} armor)" else "") ++ ".")
            else
              push t1 (s!"🤖 {ai.name} fires **{wp.name}** and hits {foe.name} for **{fm.1}**" ++
                (if 0 < fm.2 then s!" (−{fm.2} armor)" else "") ++ ".")
          record_hit t2 ai.user_id foe.user_id "shot" wp.name
        else
          if wp.name = "Fists" then push s (s!"🤖 {ai.name} **swings** and **misses**.")
          else push s (s!"🤖 {ai.name} fires and **misses**.")
      end_turn s1 bd fd

/-! ### Concrete fixtures used by witness and counterexample theorems -/

/-- Concrete combatant used by the witnesses. -/
def combA : Combatant := ⟨1, "Alice", 100, false⟩

/-- Concrete combatant used by the witnesses. -/
def combB : Combatant := ⟨2, "Bob", 100, true⟩

/-- A freshly initialized duel state (mirrors `__post_init__` defaults for a
Mid-range start), used as the base of the concrete witnesses. -/
def baseState : DuelState :=
  { a := combA, b := combB, range_idx := 2, vis_segments := 26, posA := 5, posB := 18,
    last_mover := none, turn_id := 0, log_lines := [], full_log_lines := [],
    active := true, round_no := 1, grappling := false, positioning := fun _ => 50,
    choking := none, breath := fun _ => none, bloodflow := fun _ => none,
    unconscious := fun _ => false, clearing_stacks := fun _ => none,
    clearing_expiries := fun _ => none, turn_tick := 0, hidden := fun _ => false,
    in_cover := fun _ => false, cover_pct := fun _ => none,
    grenades_pending := fun _ => none, skip_turn_for := fun _ => false,
    last_hit := fun _ => none, grapple_just_started := false,
    grapple_starter_id := none, grapple_flip := 0, finisher := none,
    trails := fun _ _ => false, cover_line := fun _ => none }

/-- Fixture for the C6 witness: Alice choking Bob, Bob's breath at 5. -/
def c6State : DuelState :=
  { baseState with
      range_idx := 0, posA := 12, posB := 14, grappling := true,
      choking := some (1, 2),
      breath := fun u => if u = 2 then some 5 else none,
      bloodflow := fun u => if u = 2 then some 50 else none }

/-- Fixture for C2: the fresh state at gate CLOSE (`range_idx = 1`). -/
def c2State : DuelState := { baseState with range_idx := 1 }

/-- Fixture for C2/C8: the fresh state at gate HANDS (`range_idx = 0`). -/
def handsState : DuelState := { baseState with range_idx := 0, posA := 12, posB := 14 }

/-- Fixture for the C7 witness: Bob (the incoming player) is flagged to
skip their turn. -/
def c7State : DuelState :=
  { baseState with skip_turn_for := fun u => decide (u = 2) }

/-- A loadout with no weapon in either slot and no mods. -/
def emptyKit : CombatKit := ⟨none, none, "primary", ⟨0, 0⟩⟩

/-- Baseline stats (combat 10, fitness 10, armor 0). -/
def evenStats : Stats := ⟨10, 10, 0⟩

/-- Fixture for the C10 witness: Alice at 0 hp, Bob unconscious. -/
def c10State : DuelState :=
  { baseState with a := { combA with hp := 0 }, unconscious := fun u => decide (u = 2) }

/-- Fixture for the C3 witness: grappling at HANDS with an active choke. -/
def c3State : DuelState :=
  { baseState with
      range_idx := 0, posA := 12, posB := 14, grappling := true,
      choking := some (1, 2),
      breath := fun u => if u = 2 then some 30 else none,
      bloodflow := fun u => if u = 2 then some 40 else none }

/-- Fixture for C1: a grenade thrown by Bob (damage 35) is pending on
Alice, who is about to act. -/
def c1State : DuelState :=
  { baseState with grenades_pending := fun u => if u = 1 then some ⟨2, 35⟩ else none }

/-! ### Theorems -/

/-- `_apply_choke_tick` only touches the meters, the unconscious set, the
attribution map and the log. -/
theorem choke_tick_pres (y : DuelState) (bd fd : ℤ) :
    (_apply_choke_tick y bd fd).a = y.a ∧
    (_apply_choke_tick y bd fd).b = y.b ∧
    (_apply_choke_tick y bd fd).turn_id = y.turn_id ∧
    (_apply_choke_tick y bd fd).round_no = y.round_no ∧
    (_apply_choke_tick y bd fd).turn_tick = y.turn_tick ∧
    (_apply_choke_tick y bd fd).grapple_flip = y.grapple_flip ∧
    (_apply_choke_tick y bd fd).skip_turn_for = y.skip_turn_for ∧
    (_apply_choke_tick y bd fd).grenades_pending = y.grenades_pending ∧
    (_apply_choke_tick y bd fd).choking = y.choking ∧
    (_apply_choke_tick y bd fd).grappling = y.grappling ∧
    (_apply_choke_tick y bd fd).posA = y.posA ∧
    (_apply_choke_tick y bd fd).posB = y.posB ∧
    (_apply_choke_tick y bd fd).clearing_stacks = y.clearing_stacks ∧
    (_apply_choke_tick y bd fd).clearing_expiries = y.clearing_expiries ∧
    (_apply_choke_tick y bd fd).active = y.active ∧
    (_apply_choke_tick y bd fd).range_idx = y.range_idx ∧
    (_apply_choke_tick y bd fd).vis_segments = y.vis_segments := by
  cases hch : y.choking with
  | none => simp [_apply_choke_tick, hch]
  | some ct =>
    obtain ⟨c, t⟩ := ct
    simp only [_apply_choke_tick, hch]
    split_ifs <;> simp [add_raw]

/-- `_expire_clearing` only touches the two clearing maps. -/
theorem expire_pres (y : DuelState) :
    (_expire_clearing y).a = y.a ∧
    (_expire_clearing y).b = y.b ∧
    (_expire_clearing y).turn_id = y.turn_id ∧
    (_expire_clearing y).round_no = y.round_no ∧
    (_expire_clearing y).turn_tick = y.turn_tick ∧
    (_expire_clearing y).grapple_flip = y.grapple_flip ∧
    (_expire_clearing y).skip_turn_for = y.skip_turn_for ∧
    (_expire_clearing y).grenades_pending = y.grenades_pending ∧
    (_expire_clearing y).choking = y.choking ∧
    (_expire_clearing y).grappling = y.grappling ∧
    (_expire_clearing y).posA = y.posA ∧
    (_expire_clearing y).posB = y.posB ∧
    (_expire_clearing y).breath = y.breath ∧
    (_expire_clearing y).bloodflow = y.bloodflow ∧
    (_expire_clearing y).unconscious = y.unconscious ∧
    (_expire_clearing y).last_hit = y.last_hit ∧
    (_expire_clearing y).active = y.active ∧
    (_expire_clearing y).full_log_lines = y.full_log_lines ∧
    (_expire_clearing y).log_lines = y.log_lines ∧
    (_expire_clearing y).range_idx = y.range_idx ∧
    (_expire_clearing y).vis_segments = y.vis_segments :=
  ⟨rfl, rfl, rfl, rfl, rfl, rfl, rfl, rfl, rfl, rfl, rfl, rfl, rfl, rfl, rfl, rfl, rfl,
   rfl, rfl, rfl, rfl⟩

/-- The scheduler steps only touch the turn bookkeeping, the skip flag and
the log. -/
theorem sched_pres (y : DuelState) :
    (endTurnSched y).a = y.a ∧
    (endTurnSched y).b = y.b ∧
    (endTurnSched y).choking = y.choking ∧
    (endTurnSched y).breath = y.breath ∧
    (endTurnSched y).bloodflow = y.bloodflow ∧
    (endTurnSched y).unconscious = y.unconscious ∧
    (endTurnSched y).grenades_pending = y.grenades_pending ∧
    (endTurnSched y).posA = y.posA ∧
    (endTurnSched y).posB = y.posB ∧
    (endTurnSched y).range_idx = y.range_idx ∧
    (endTurnSched y).vis_segments = y.vis_segments ∧
    (endTurnSched y).clearing_stacks = y.clearing_stacks ∧
    (endTurnSched y).clearing_expiries = y.clearing_expiries ∧
    (endTurnSched y).active = y.active ∧
    (endTurnSched y).grappling = y.grappling ∧
    (endTurnSched y).last_hit = y.last_hit ∧
    (endTurnSched y).hidden = y.hidden ∧
    (endTurnSched y).in_cover = y.in_cover := by
  simp only [endTurnSched, schedFlip]
  split_ifs <;> simp [add_raw]

/-- Hit points are never modified by `end_turn` (in particular the choke
tick incapacitates without touching hp). -/
theorem end_turn_hp (y : DuelState) (bd fd : ℤ) :
    (end_turn y bd fd).a = y.a ∧ (end_turn y bd fd).b = y.b := by
  unfold end_turn
  constructor
  · rw [(expire_pres _).1, (choke_tick_pres _ _ _).1, (sched_pres _).1]
  · rw [(expire_pres _).2.1, (choke_tick_pres _ _ _).2.1, (sched_pres _).2.1]

/-- An unconscious combatant stays unconscious through `end_turn`. -/
theorem end_turn_unc (y : DuelState) (bd fd u : ℤ)
    (h : y.unconscious u = true) : (end_turn y bd fd).unconscious u = true := by
  unfold end_turn
  rw [(expire_pres _).2.2.2.2.2.2.2.2.2.2.2.2.2.2.1]
  have hs : (endTurnSched y).unconscious = y.unconscious := (sched_pres _).2.2.2.2.2.1
  cases hch : (endTurnSched y).choking with
  | none => simp [_apply_choke_tick, hch, hs, h]
  | some ct =>
    obtain ⟨c, t⟩ := ct
    simp only [_apply_choke_tick, hch]
    split_ifs <;> simp [add_raw, upd, hs, h]

/-- The formulas of one choke tick: both meters decay by their clamped
draws, and a meter at ≤ 0 marks the target unconscious with a `strangled`
attribution; otherwise the unconscious set is untouched. -/
theorem choke_tick_meters (y : DuelState) (c t bd fd : ℤ)
    (hch : y.choking = some (c, t)) :
    (_apply_choke_tick y bd fd).breath t =
      some (iclamp ((y.breath t).getD 50 - bd) 0 100) ∧
    (_apply_choke_tick y bd fd).bloodflow t =
      some (iclamp ((y.bloodflow t).getD 50 - fd) 0 100) ∧
    ((iclamp ((y.breath t).getD 50 - bd) 0 100 ≤ 0 ∨
      iclamp ((y.bloodflow t).getD 50 - fd) 0 100 ≤ 0) →
      (_apply_choke_tick y bd fd).unconscious t = true ∧
      (_apply_choke_tick y bd fd).last_hit t = some ⟨c, "strangled", ""⟩) ∧
    (¬(iclamp ((y.breath t).getD 50 - bd) 0 100 ≤ 0 ∨
      iclamp ((y.bloodflow t).getD 50 - fd) 0 100 ≤ 0) →
      (_apply_choke_tick y bd fd).unconscious = y.unconscious) := by
  simp only [_apply_choke_tick, hch]
  by_cases htrig : (iclamp ((y.breath t).getD 50 - bd) 0 100 ≤ 0 ∨
      iclamp ((y.bloodflow t).getD 50 - fd) 0 100 ≤ 0)
  · refine ⟨?_, ?_, fun _ => ⟨?_, ?_⟩, fun hn => absurd htrig hn⟩ <;>
      simp [htrig, add_raw, upd]
  · refine ⟨?_, ?_, fun htr => absurd htr htrig, fun _ => ?_⟩ <;>
      simp [htrig, upd]

/-- Characterization of `btn_squeeze` when the choke guard passes: it is
`end_turn` applied to an intermediate state whose meters took the
active-squeeze decay, whose unconscious set gained the target if a meter
hit 0, and which left hp, pending grenades and the choke tuple alone. -/
theorem btn_squeeze_out (s : DuelState) (c t sd sf bd fd : ℤ)
    (hch : s.choking = some (c, t)) (hg : chokeGuard s = true) :
    ∃ x : DuelState, btn_squeeze s sd sf bd fd = end_turn x bd fd ∧
      x.a = s.a ∧ x.b = s.b ∧ x.choking = s.choking ∧
      x.breath t = some (iclamp ((s.breath t).getD 50 - sd) 0 100) ∧
      x.bloodflow t = some (iclamp ((s.bloodflow t).getD 50 - sf) 0 100) ∧
      ((iclamp ((s.breath t).getD 50 - sd) 0 100 ≤ 0 ∨
        iclamp ((s.bloodflow t).getD 50 - sf) 0 100 ≤ 0) → x.unconscious t = true) ∧
      x.grenades_pending = s.grenades_pending := by
  simp only [btn_squeeze, hg, Bool.true_eq_false, if_false, hch]
  refine ⟨_, rfl, ?_, ?_, ?_, ?_, ?_, ?_, ?_⟩
  · split <;> (try split) <;> (try split) <;> simp [push, add_raw, record_hit, upd]
  · split <;> (try split) <;> (try split) <;> simp [push, add_raw, record_hit, upd]
  · split <;> (try split) <;> (try split) <;> simp [push, add_raw, record_hit, upd, hch]
  · split <;> (try split) <;> (try split) <;> simp [push, add_raw, record_hit, upd]
  · split <;> (try split) <;> (try split) <;> simp [push, add_raw, record_hit, upd]
  · intro htrig
    simp only [if_pos htrig]
    split <;> (try split) <;> simp [push, add_raw, record_hit, upd]
  · split <;> (try split) <;> (try split) <;> simp [push, add_raw, record_hit, upd]

/-- `end_turn` applies exactly one ambient choke tick to the meters when a
choke is on. -/
theorem end_turn_breath (y : DuelState) (c t bd fd : ℤ)
    (hch : y.choking = some (c, t)) :
    (end_turn y bd fd).breath t = some (iclamp ((y.breath t).getD 50 - bd) 0 100) := by
  unfold end_turn
  have hcho : (endTurnSched y).choking = y.choking := (sched_pres y).2.2.1
  have hbr : (endTurnSched y).breath = y.breath := (sched_pres y).2.2.2.1
  have hch' : (endTurnSched y).choking = some (c, t) := by rw [hcho, hch]
  have h := (choke_tick_meters (endTurnSched y) c t bd fd hch').1
  rw [(expire_pres _).2.2.2.2.2.2.2.2.2.2.2.2.1, h, hbr]

/-- Claim C6: a choke tick reduces the target's breath by the drawn amount
([8,12] on an active squeeze, [6,10] for the ambient per-turn tick) and
bloodflow likewise ([4,8] / [3,7]), each clamped to [0,100]; a meter
reaching ≤ 0 adds the target to the unconscious set with attribution
`strangled`, and the target's hit points are unchanged — in particular,
with breath 5 and an active-squeeze breath draw ≥ 5 the target passes out
with hit points unchanged. -/
theorem choke_tick_spec (s : DuelState) (c t bd fd sd sf bd2 fd2 : ℤ)
    (hch : s.choking = some (c, t))
    (hcur : c = (current s).user_id)
    (hactive : s.active = true)
    (hbd : 6 ≤ bd ∧ bd ≤ 10) (hfd : 3 ≤ fd ∧ fd ≤ 7)
    (hsd : 8 ≤ sd ∧ sd ≤ 12) (hsf : 4 ≤ sf ∧ sf ≤ 8)
    (hbd2 : 6 ≤ bd2 ∧ bd2 ≤ 10) (hfd2 : 3 ≤ fd2 ∧ fd2 ≤ 7) :
    (_apply_choke_tick s bd fd).breath t =
      some (iclamp ((s.breath t).getD 50 - bd) 0 100) ∧
    (_apply_choke_tick s bd fd).bloodflow t =
      some (iclamp ((s.bloodflow t).getD 50 - fd) 0 100) ∧
    ((iclamp ((s.breath t).getD 50 - bd) 0 100 ≤ 0 ∨
      iclamp ((s.bloodflow t).getD 50 - fd) 0 100 ≤ 0) →
      (_apply_choke_tick s bd fd).unconscious t = true ∧
      (_apply_choke_tick s bd fd).last_hit t = some ⟨c, "strangled", ""⟩) ∧
    (_apply_choke_tick s bd fd).a.hp = s.a.hp ∧
    (_apply_choke_tick s bd fd).b.hp = s.b.hp ∧
    (btn_squeeze s sd sf bd2 fd2).a.hp = s.a.hp ∧
    (btn_squeeze s sd sf bd2 fd2).b.hp = s.b.hp ∧
    ((iclamp ((s.breath t).getD 50 - sd) 0 100 ≤ 0 ∨
      iclamp ((s.bloodflow t).getD 50 - sf) 0 100 ≤ 0) →
      (btn_squeeze s sd sf bd2 fd2).unconscious t = true) ∧
    (btn_squeeze s sd sf bd2 fd2).breath t =
      some (iclamp (iclamp ((s.breath t).getD 50 - sd) 0 100 - bd2) 0 100) ∧
    (s.breath t = some 5 →
      (btn_squeeze s sd sf bd2 fd2).unconscious t = true ∧
      (btn_squeeze s sd sf bd2 fd2).a.hp = s.a.hp ∧
      (btn_squeeze s sd sf bd2 fd2).b.hp = s.b.hp) := by
  have hguard : chokeGuard s = true := by simp [chokeGuard, hch, hcur, hactive]
  obtain ⟨x, hxeq, hxa, hxb, hxcho, hxbr, hxbl, hxunc, hxgren⟩ :=
    btn_squeeze_out s c t sd sf bd2 fd2 hch hguard
  obtain ⟨hambr, hambl, hamtrig, hamunc⟩ := choke_tick_meters s c t bd fd hch
  have hqa : (btn_squeeze s sd sf bd2 fd2).a.hp = s.a.hp := by
    rw [hxeq, (end_turn_hp x bd2 fd2).1, hxa]
  have hqb : (btn_squeeze s sd sf bd2 fd2).b.hp = s.b.hp := by
    rw [hxeq, (end_turn_hp x bd2 fd2).2, hxb]
  have hqunc : (iclamp ((s.breath t).getD 50 - sd) 0 100 ≤ 0 ∨
      iclamp ((s.bloodflow t).getD 50 - sf) 0 100 ≤ 0) →
      (btn_squeeze s sd sf bd2 fd2).unconscious t = true := by
    intro htrig
    rw [hxeq]
    exact end_turn_unc x bd2 fd2 t (hxunc htrig)
  refine ⟨hambr, hambl, hamtrig,
    congrArg Combatant.hp (choke_tick_pres s bd fd).1,
    congrArg Combatant.hp (choke_tick_pres s bd fd).2.1,
    hqa, hqb, hqunc, ?_, ?_⟩
  · rw [hxeq, end_turn_breath x c t bd2 fd2 (hxcho.trans hch), hxbr]
    simp
  · intro hb5
    have htrig : iclamp ((s.breath t).getD 50 - sd) 0 100 ≤ 0 := by
      rw [hb5]
      simp only [Option.getD_some, iclamp]
      omega
    exact ⟨hqunc (Or.inl htrig), hqa, hqb⟩

/-- Witness for C6: with breath 5 and squeeze draw 8 (≥ 5), Bob passes out
and both hit-point totals are exactly as before the squeeze. -/
theorem choke_tick_spec_wit :
    c6State.choking = some (1, 2) ∧ c6State.breath 2 = some 5 ∧
    (btn_squeeze c6State 8 4 6 3).unconscious 2 = true ∧
    (btn_squeeze c6State 8 4 6 3).a.hp = c6State.a.hp ∧
    (btn_squeeze c6State 8 4 6 3).b.hp = c6State.b.hp := by
  have h := choke_tick_spec c6State 1 2 6 3 8 4 6 3 rfl (by decide) rfl
    (by decide) (by decide) (by decide) (by decide) (by decide) (by decide)
  have hs := h.2.2.2.2.2.2.2.2.2 rfl
  exact ⟨rfl, rfl, hs.1, hs.2.1, hs.2.2⟩

/-- Behaviour of the scheduler steps: owner flip, tick increment, round
increment exactly on return to combatant 0, grapple-bit flip iff grappling,
and the one-time skip consumption with its log line. -/
theorem sched_spec (s : DuelState) (h01 : s.turn_id = 0 ∨ s.turn_id = 1) :
    (endTurnSched s).turn_id =
      (if s.skip_turn_for (if s.turn_id ^^^ 1 = 0 then s.a else s.b).user_id = true
       then s.turn_id else s.turn_id ^^^ 1) ∧
    (endTurnSched s).turn_tick =
      s.turn_tick +
        (if s.skip_turn_for (if s.turn_id ^^^ 1 = 0 then s.a else s.b).user_id = true
         then 2 else 1) ∧
    (endTurnSched s).round_no =
      s.round_no +
        (if s.skip_turn_for (if s.turn_id ^^^ 1 = 0 then s.a else s.b).user_id = true
         then 1 else if s.turn_id = 1 then 1 else 0) ∧
    (endTurnSched s).grapple_flip =
      (if s.grappling = true then s.grapple_flip ^^^ 1 else s.grapple_flip) ∧
    (s.skip_turn_for (if s.turn_id ^^^ 1 = 0 then s.a else s.b).user_id = true →
      (endTurnSched s).skip_turn_for
        (if s.turn_id ^^^ 1 = 0 then s.a else s.b).user_id = false ∧
      (s!"😵 {(if s.turn_id ^^^ 1 = 0 then s.a else s.b).name} is staggered and loses a turn.")
        ∈ (endTurnSched s).full_log_lines) := by
  rcases h01 with h0 | h0 <;>
    by_cases hskip :
      s.skip_turn_for (if s.turn_id ^^^ 1 = 0 then s.a else s.b).user_id = true <;>
    by_cases hgr : s.grappling = true <;>
    simp_all [endTurnSched, schedFlip, current, add_raw, upd] <;>
    omega

/-- A line already in the full log survives a choke tick. -/
theorem choke_log_mono (y : DuelState) (bd fd : ℤ) (m : String)
    (h : m ∈ y.full_log_lines) :
    m ∈ (_apply_choke_tick y bd fd).full_log_lines := by
  cases hch : y.choking with
  | none => simpa [_apply_choke_tick, hch]
  | some ct =>
    obtain ⟨c, t⟩ := ct
    simp only [_apply_choke_tick, hch]
    split_ifs <;> simp [add_raw, h]

/-- Companion to `end_turn_breath` for the bloodflow meter. -/
theorem end_turn_bloodflow (y : DuelState) (c t bd fd : ℤ)
    (hch : y.choking = some (c, t)) :
    (end_turn y bd fd).bloodflow t =
      some (iclamp ((y.bloodflow t).getD 50 - fd) 0 100) := by
  unfold end_turn
  have hcho : (endTurnSched y).choking = y.choking := (sched_pres y).2.2.1
  have hbl : (endTurnSched y).bloodflow = y.bloodflow := (sched_pres y).2.2.2.2.1
  have hch' : (endTurnSched y).choking = some (c, t) := by rw [hcho, hch]
  have h := (choke_tick_meters (endTurnSched y) c t bd fd hch').2.1
  rw [(expire_pres _).2.2.2.2.2.2.2.2.2.2.2.2.2.1, h, hbl]

/-- Claim C7: `end_turn` flips the turn owner, increments the round exactly
when the owner returns to combatant 0, increments the tick, flips the
grapple bit iff grappling; a flagged skip consumes the flag, logs the lost
turn, and repeats the flip/round/tick exactly once more; only then is at
most one choke tick applied (iff choking), followed by clearing-stack
expiry keyed on the incremented absolute tick. -/
theorem end_turn_spec (s : DuelState) (bd fd : ℤ)
    (h01 : s.turn_id = 0 ∨ s.turn_id = 1)
    (hab : s.a.user_id ≠ s.b.user_id) :
    (end_turn s bd fd).turn_id =
      (if s.skip_turn_for (if s.turn_id ^^^ 1 = 0 then s.a else s.b).user_id = true
       then s.turn_id else s.turn_id ^^^ 1) ∧
    (end_turn s bd fd).turn_tick =
      s.turn_tick +
        (if s.skip_turn_for (if s.turn_id ^^^ 1 = 0 then s.a else s.b).user_id = true
         then 2 else 1) ∧
    (end_turn s bd fd).round_no =
      s.round_no +
        (if s.skip_turn_for (if s.turn_id ^^^ 1 = 0 then s.a else s.b).user_id = true
         then 1 else if s.turn_id = 1 then 1 else 0) ∧
    (end_turn s bd fd).grapple_flip =
      (if s.grappling = true then s.grapple_flip ^^^ 1 else s.grapple_flip) ∧
    (s.skip_turn_for (if s.turn_id ^^^ 1 = 0 then s.a else s.b).user_id = true →
      (end_turn s bd fd).skip_turn_for
        (if s.turn_id ^^^ 1 = 0 then s.a else s.b).user_id = false ∧
      (s!"😵 {(if s.turn_id ^^^ 1 = 0 then s.a else s.b).name} is staggered and loses a turn.")
        ∈ (end_turn s bd fd).full_log_lines) ∧
    (s.choking = none →
      (end_turn s bd fd).breath = s.breath ∧
      (end_turn s bd fd).bloodflow = s.bloodflow ∧
      (end_turn s bd fd).unconscious = s.unconscious) ∧
    (∀ c t, s.choking = some (c, t) →
      (end_turn s bd fd).breath t = some (iclamp ((s.breath t).getD 50 - bd) 0 100) ∧
      (end_turn s bd fd).bloodflow t =
        some (iclamp ((s.bloodflow t).getD 50 - fd) 0 100)) ∧
    (∀ u, u = s.a.user_id ∨ u = s.b.user_id →
      (end_turn s bd fd).clearing_expiries u =
        (expireOne (s.clearing_expiries u) (s.clearing_stacks u)
          (end_turn s bd fd).turn_tick).1 ∧
      (end_turn s bd fd).clearing_stacks u =
        (expireOne (s.clearing_expiries u) (s.clearing_stacks u)
          (end_turn s bd fd).turn_tick).2) := by
  obtain ⟨t1, t2, t3, t4, t5⟩ := sched_spec s h01
  obtain ⟨sa, sb, scho, sbr, sbl, sunc, sgren, spA, spB, sri, svs, scs, sce, sact, sgr,
    slh, shid, sic⟩ := sched_pres s
  obtain ⟨ca, cb, cti, cro, ctk, cfl, csk, cgren, ccho, cgrap, cpA, cpB, ccs, cce,
    cact, cri, cvs⟩ := choke_tick_pres (endTurnSched s) bd fd
  obtain ⟨ea, eb, eti, ero, etk, efl, esk, egren, echo, egrap, epA, epB, ebr, ebl,
    eunc, elh, eact, eflog, elog, eri, evs⟩ :=
    expire_pres (_apply_choke_tick (endTurnSched s) bd fd)
  have hE : end_turn s bd fd =
      _expire_clearing (_apply_choke_tick (endTurnSched s) bd fd) := rfl
  refine ⟨?_, ?_, ?_, ?_, ?_, ?_, ?_, ?_⟩
  · rw [hE, eti, cti, t1]
  · rw [hE, etk, ctk, t2]
  · rw [hE, ero, cro, t3]
  · rw [hE, efl, cfl, t4]
  · intro hskip
    constructor
    · rw [hE]
      have : (_expire_clearing (_apply_choke_tick (endTurnSched s) bd fd)).skip_turn_for =
          (endTurnSched s).skip_turn_for := by rw [esk, csk]
      rw [this]
      exact (t5 hskip).1
    · rw [hE]
      rw [eflog]
      exact choke_log_mono _ bd fd _ (t5 hskip).2
  · intro hchn
    have hcho' : (endTurnSched s).choking = none := by rw [scho, hchn]
    have hid : _apply_choke_tick (endTurnSched s) bd fd = endTurnSched s := by
      simp [_apply_choke_tick, hcho']
    rw [hE, ebr, ebl, eunc, hid, sbr, sbl, sunc]
    exact ⟨rfl, rfl, rfl⟩
  · intro c t hch
    exact ⟨end_turn_breath s c t bd fd hch, end_turn_bloodflow s c t bd fd hch⟩
  · intro u hu
    have hproj_ce : ∀ (x : DuelState) (v : ℤ), (_expire_uid x v).clearing_expiries =
        upd x.clearing_expiries v
          (expireOne (x.clearing_expiries v) (x.clearing_stacks v) x.turn_tick).1 :=
      fun _ _ => rfl
    have hproj_cs : ∀ (x : DuelState) (v : ℤ), (_expire_uid x v).clearing_stacks =
        upd x.clearing_stacks v
          (expireOne (x.clearing_expiries v) (x.clearing_stacks v) x.turn_tick).2 :=
      fun _ _ => rfl
    have hproj_t : ∀ (x : DuelState) (v : ℤ), (_expire_uid x v).turn_tick = x.turn_tick :=
      fun _ _ => rfl
    set y := _apply_choke_tick (endTurnSched s) bd fd with hy
    have hyce : y.clearing_expiries = s.clearing_expiries := by rw [cce, sce]
    have hycs : y.clearing_stacks = s.clearing_stacks := by rw [ccs, scs]
    have hyau : y.a.user_id = s.a.user_id := by rw [ca, sa]
    have hybu : y.b.user_id = s.b.user_id := by rw [cb, sb]
    have hEt : (end_turn s bd fd).turn_tick = y.turn_tick := etk
    have hEce : (end_turn s bd fd).clearing_expiries =
        (_expire_uid (_expire_uid y y.a.user_id) y.b.user_id).clearing_expiries := rfl
    have hEcs : (end_turn s bd fd).clearing_stacks =
        (_expire_uid (_expire_uid y y.a.user_id) y.b.user_id).clearing_stacks := rfl
    rw [hEce, hEcs, hEt]
    simp only [hproj_ce, hproj_cs, hproj_t, hyce, hycs, hyau, hybu]
    rcases hu with hua | hub
    · subst hua
      constructor
      · simp [upd, hab, Ne.symm hab]
      · simp [upd, hab, Ne.symm hab]
    · subst hub
      constructor
      · simp [upd, hab, Ne.symm hab]
      · simp [upd, hab, Ne.symm hab]

/-- Witness for C7: with Bob flagged to skip, `end_turn` returns the turn
to Alice, advances the tick by 2 and the round by 1, and consumes the flag. -/
theorem end_turn_spec_wit :
    c7State.skip_turn_for
      (if c7State.turn_id ^^^ 1 = 0 then c7State.a else c7State.b).user_id = true ∧
    (end_turn c7State 6 3).turn_id = c7State.turn_id ∧
    (end_turn c7State 6 3).turn_tick = c7State.turn_tick + 2 ∧
    (end_turn c7State 6 3).round_no = c7State.round_no + 1 ∧
    (end_turn c7State 6 3).skip_turn_for
      (if c7State.turn_id ^^^ 1 = 0 then c7State.a else c7State.b).user_id = false := by
  have h := end_turn_spec c7State 6 3 (Or.inl rfl) (by decide)
  have hskip : c7State.skip_turn_for
      (if c7State.turn_id ^^^ 1 = 0 then c7State.a else c7State.b).user_id = true := by decide
  refine ⟨hskip, ?_, ?_, ?_, (h.2.2.2.2.1 hskip).1⟩
  · rw [h.1, if_pos hskip]
  · rw [h.2.1, if_pos hskip]
  · rw [h.2.2.1, if_pos hskip]

/-- Fists are allowed exactly at Hands On or while grappling. -/
theorem fists_ok_at_hands (s : DuelState) (hH : rngate s = RangeGate.HANDS) :
    _fists_too_far s = false := by
  cases hg : s.grappling <;> simp [_fists_too_far, can_grapple, hH, hg]

/-- Counterexample to C2 as stated: at gate CLOSE with no weapon in either
slot and a hit roll of 0 (a guaranteed hit if the hit roll were reached),
the defender's hit points are unchanged and the only appended line is the
"too far to swing" refusal — the attack does not proceed to the hit roll. -/
theorem unarmed_close_no_hit_roll_cex :
    rg_to_loadout_range (rngate c2State) = "Close" ∧
    pick_weapon_for_range "Close" emptyKit = none ∧
    (_attack_once c2State emptyKit evenStats evenStats 0).b.hp = c2State.b.hp ∧
    (_attack_once c2State emptyKit evenStats evenStats 0).full_log_lines =
      c2State.full_log_lines ++ ["Alice is too far away to **swing** their fists."] := by
  refine ⟨by decide, by decide, by decide, by decide⟩

/-- Claim C2 (amended): with no weapon in either slot, label "Close" falls
back to the implicit Fists profile (base accuracy 70, base damage 6) and any
other label fails with `no_weapon_too_far`, the only state change being the
log message; however the Attack reaches the hit roll only at gate HANDS (or
while grappling) — at gate CLOSE the swing is refused and the only state
change is the appended log message. -/
theorem unarmed_fallback_resolution (s : DuelState) (kit : CombatKit)
    (atk dfn : Stats) (roll : ℚ) (lbl : String)
    (hpickC : pick_weapon_for_range "Close" kit = none)
    (hpickL : pick_weapon_for_range lbl kit = none) :
    compute_attack_numbers kit "Close" =
      .ready "unarmed" fistsProfile (iclamp (70 + kit.mods.accuracy + 10) 5 95)
        (max 1 (6 + kit.mods.damage)) kit.mods ∧
    (lbl ≠ "Close" →
      compute_attack_numbers kit lbl =
        .notReady "no_weapon_too_far"
          (s!"No viable weapon at {lbl} range. You're unarmed — advance to **Close** to use **Fists**.")
          kit.mods) ∧
    (rg_to_loadout_range (rngate s) = lbl → lbl ≠ "Close" →
      _attack_once s kit atk dfn roll =
        push s (s!"No viable weapon at {lbl} range. You're unarmed — advance to **Close** to use **Fists**.")) ∧
    (rngate s = RangeGate.CLOSE → s.grappling = false →
      _attack_once s kit atk dfn roll =
        push s (s!"{(current s).name} is too far away to **swing** their fists.")) ∧
    (rngate s = RangeGate.HANDS →
      (roll ≤ clamp
          ((if s.hidden (other s).user_id = true then 0
            else if s.in_cover (other s).user_id = true then
              ((iclamp (70 + kit.mods.accuracy + 10) 5 95 : ℤ) : ℚ) / 100 *
                (1 - ((s.cover_pct (other s).user_id).getD 0 : ℚ) / 100)
            else ((iclamp (70 + kit.mods.accuracy + 10) 5 95 : ℤ) : ℚ) / 100) +
            (15/1000) * (atk.combat - dfn.combat) +
            (10/1000) * (atk.fitness - dfn.fitness)) 0 (98/100) →
        (other (_attack_once s kit atk dfn roll)).hp =
          max 0 ((other s).hp -
            (apply_armor_reduction dfn.armor (max 1 (6 + kit.mods.damage)) "melee").1) ∧
        (_attack_once s kit atk dfn roll).last_hit (other s).user_id =
          some ⟨(current s).user_id, "shot", "Fists"⟩) ∧
      (¬roll ≤ clamp
          ((if s.hidden (other s).user_id = true then 0
            else if s.in_cover (other s).user_id = true then
              ((iclamp (70 + kit.mods.accuracy + 10) 5 95 : ℤ) : ℚ) / 100 *
                (1 - ((s.cover_pct (other s).user_id).getD 0 : ℚ) / 100)
            else ((iclamp (70 + kit.mods.accuracy + 10) 5 95 : ℤ) : ℚ) / 100) +
            (15/1000) * (atk.combat - dfn.combat) +
            (10/1000) * (atk.fitness - dfn.fitness)) 0 (98/100) →
        _attack_once s kit atk dfn roll =
          push s (s!"{(current s).name} **swings** and **misses**."))) := by
  have ha : compute_attack_numbers kit "Close" =
      .ready "unarmed" fistsProfile (iclamp (70 + kit.mods.accuracy + 10) 5 95)
        (max 1 (6 + kit.mods.damage)) kit.mods := by
    simp [compute_attack_numbers, hpickC, rangeAccMod, fistsProfile]
  refine ⟨ha, ?_, ?_, ?_, ?_⟩
  · intro hlbl
    simp [compute_attack_numbers, hpickL, hlbl]
  · intro hrg hlbl
    have hcalc : compute_attack_numbers kit lbl =
        .notReady "no_weapon_too_far"
          (s!"No viable weapon at {lbl} range. You're unarmed — advance to **Close** to use **Fists**.")
          kit.mods := by
      simp [compute_attack_numbers, hpickL, hlbl]
    simp only [_attack_once, hrg, hcalc]
  · intro hC hg
    have htf : _fists_too_far s = true := by
      simp [_fists_too_far, can_grapple, hC, hg]
    have hrg : rg_to_loadout_range (rngate s) = "Close" := by
      rw [hC]; rfl
    simp only [_attack_once, hrg, ha, htf, fistsProfile, and_true, and_self, if_true,
      reduceIte]
  · intro hH
    have htf : _fists_too_far s = false := fists_ok_at_hands s hH
    have hrg : rg_to_loadout_range (rngate s) = "Close" := by
      rw [hH]; rfl
    constructor
    · intro hroll
      by_cases hhid : s.hidden (other s).user_id = true <;>
        by_cases hcov : s.in_cover (other s).user_id = true <;>
        by_cases h0 : s.turn_id = 0 <;>
        simp_all only [_attack_once, hrg, ha, htf, fistsProfile, Bool.false_eq_true,
          and_false, if_false, if_true, if_pos, if_neg, not_false_eq_true] <;>
        simp_all [armor_kind_from_wclass, other, current, setHp, record_hit, push,
          add_raw, upd, h0]
    · intro hroll
      by_cases hhid : s.hidden (other s).user_id = true <;>
        by_cases hcov : s.in_cover (other s).user_id = true <;>
        simp_all only [_attack_once, hrg, ha, htf, fistsProfile, Bool.false_eq_true,
          and_false, if_false, if_true, if_pos, if_neg, not_false_eq_true] <;>
        simp_all [push, add_raw]

/-- Witness for C2: at gate HANDS with empty slots and a 0 roll, the Attack
reaches the hit roll and lands the Fists hit for 6 (no armor). -/
theorem unarmed_fallback_resolution_wit :
    pick_weapon_for_range "Close" emptyKit = none ∧
    rngate handsState = RangeGate.HANDS ∧
    (other (_attack_once handsState emptyKit evenStats evenStats 0)).hp =
      max 0 ((other handsState).hp -
        (apply_armor_reduction evenStats.armor (max 1 (6 + emptyKit.mods.damage)) "melee").1) ∧
    (_attack_once handsState emptyKit evenStats evenStats 0).last_hit
      (other handsState).user_id =
      some ⟨(current handsState).user_id, "shot", "Fists"⟩ := by
  have h := (unarmed_fallback_resolution handsState emptyKit evenStats evenStats 0 "Mid"
    (by decide) (by decide)).2.2.2.2 rfl
  obtain ⟨hhit, hmiss⟩ := h
  have hr := hhit (by norm_num [handsState, baseState, other, current, clamp, iclamp,
    emptyKit, evenStats])
  exact ⟨by decide, rfl, hr.1, hr.2⟩

/-- `_check_grapple_transition` leaves everything but the grapple/choke
phase fields and the log alone. -/
theorem check_trans_pres (x : DuelState) (prev now : RangeGate) (act : Option ℤ) :
    (_check_grapple_transition x prev now act).a = x.a ∧
    (_check_grapple_transition x prev now act).b = x.b ∧
    (_check_grapple_transition x prev now act).turn_id = x.turn_id ∧
    (_check_grapple_transition x prev now act).turn_tick = x.turn_tick ∧
    (_check_grapple_transition x prev now act).skip_turn_for = x.skip_turn_for ∧
    (_check_grapple_transition x prev now act).grenades_pending = x.grenades_pending ∧
    (_check_grapple_transition x prev now act).active = x.active ∧
    (_check_grapple_transition x prev now act).unconscious = x.unconscious ∧
    (_check_grapple_transition x prev now act).last_hit = x.last_hit ∧
    (_check_grapple_transition x prev now act).round_no = x.round_no := by
  simp only [_check_grapple_transition, add_raw]
  split_ifs <;> simp

/-- If no choke is on, none is on after the transition check either. -/
theorem check_trans_choking_none (x : DuelState) (prev now : RangeGate)
    (act : Option ℤ) (h : x.choking = none) :
    (_check_grapple_transition x prev now act).choking = none := by
  simp only [_check_grapple_transition, add_raw]
  split_ifs <;> simp_all

/-- If the grapple is off and no choke is on, the transition check adds no
log line. -/
theorem check_trans_log_quiet (x : DuelState) (prev now : RangeGate)
    (act : Option ℤ) (hg : x.grappling = false) (hc : x.choking = none) :
    (_check_grapple_transition x prev now act).full_log_lines = x.full_log_lines := by
  simp only [_check_grapple_transition, add_raw]
  split_ifs <;> simp_all

/-- `micro_move` leaves combatants, turn bookkeeping, pending grenades and
status sets alone. -/
theorem micro_move_pres (s : DuelState) (u st : ℤ) :
    (micro_move s u st).a = s.a ∧
    (micro_move s u st).b = s.b ∧
    (micro_move s u st).turn_id = s.turn_id ∧
    (micro_move s u st).turn_tick = s.turn_tick ∧
    (micro_move s u st).skip_turn_for = s.skip_turn_for ∧
    (micro_move s u st).grenades_pending = s.grenades_pending ∧
    (micro_move s u st).active = s.active ∧
    (micro_move s u st).unconscious = s.unconscious ∧
    (micro_move s u st).last_hit = s.last_hit ∧
    (micro_move s u st).vis_segments = s.vis_segments := by
  have hA : ∀ (x : DuelState) (pr nw : RangeGate) (a : Option ℤ),
      (_check_grapple_transition x pr nw a).a = x.a ∧
      (_check_grapple_transition x pr nw a).b = x.b ∧
      (_check_grapple_transition x pr nw a).turn_id = x.turn_id ∧
      (_check_grapple_transition x pr nw a).turn_tick = x.turn_tick ∧
      (_check_grapple_transition x pr nw a).skip_turn_for = x.skip_turn_for ∧
      (_check_grapple_transition x pr nw a).grenades_pending = x.grenades_pending ∧
      (_check_grapple_transition x pr nw a).active = x.active ∧
      (_check_grapple_transition x pr nw a).unconscious = x.unconscious ∧
      (_check_grapple_transition x pr nw a).last_hit = x.last_hit ∧
      (_check_grapple_transition x pr nw a).round_no = x.round_no :=
    check_trans_pres
  have hV : ∀ (x : DuelState) (pr nw : RangeGate) (a : Option ℤ),
      (_check_grapple_transition x pr nw a).vis_segments = x.vis_segments := by
    intro x pr nw a
    simp only [_check_grapple_transition, add_raw]
    split_ifs <;> rfl
  simp only [micro_move]
  split_ifs <;> simp [hA, hV]

/-- `micro_move` on a choke-free state stays choke-free, and on a
non-grappling state adds no log line and stays non-grappling. -/
theorem micro_move_quiet (s : DuelState) (u st : ℤ)
    (hg : s.grappling = false) (hc : s.choking = none) :
    (micro_move s u st).choking = none ∧
    (micro_move s u st).full_log_lines = s.full_log_lines := by
  by_cases hpart : u ≠ s.a.user_id ∧ u ≠ s.b.user_id
  · simp [micro_move, hg, hpart, hc]
  · simp only [micro_move, hg, Bool.false_eq_true, if_false, if_neg hpart]
    constructor
    · exact check_trans_choking_none _ _ _ _ hc
    · exact check_trans_log_quiet _ _ _ _ rfl hc

/-- `_mark_trail` only writes the trail set. -/
theorem mark_trail_pres (s : DuelState) (u : ℤ) :
    (_mark_trail s u).a = s.a ∧ (_mark_trail s u).b = s.b ∧
    (_mark_trail s u).posA = s.posA ∧ (_mark_trail s u).posB = s.posB ∧
    (_mark_trail s u).turn_id = s.turn_id ∧
    (_mark_trail s u).turn_tick = s.turn_tick ∧
    (_mark_trail s u).skip_turn_for = s.skip_turn_for ∧
    (_mark_trail s u).grenades_pending = s.grenades_pending ∧
    (_mark_trail s u).choking = s.choking ∧
    (_mark_trail s u).grappling = s.grappling ∧
    (_mark_trail s u).full_log_lines = s.full_log_lines ∧
    (_mark_trail s u).last_hit = s.last_hit ∧
    (_mark_trail s u).unconscious = s.unconscious ∧
    (_mark_trail s u).active = s.active :=
  ⟨rfl, rfl, rfl, rfl, rfl, rfl, rfl, rfl, rfl, rfl, rfl, rfl, rfl, rfl⟩

/-- `_update_cover_flags` only writes the cover fields. -/
theorem cover_flags_pres (s : DuelState) :
    (_update_cover_flags s).a = s.a ∧ (_update_cover_flags s).b = s.b ∧
    (_update_cover_flags s).posA = s.posA ∧ (_update_cover_flags s).posB = s.posB ∧
    (_update_cover_flags s).turn_id = s.turn_id ∧
    (_update_cover_flags s).turn_tick = s.turn_tick ∧
    (_update_cover_flags s).skip_turn_for = s.skip_turn_for ∧
    (_update_cover_flags s).grenades_pending = s.grenades_pending ∧
    (_update_cover_flags s).choking = s.choking ∧
    (_update_cover_flags s).grappling = s.grappling ∧
    (_update_cover_flags s).full_log_lines = s.full_log_lines ∧
    (_update_cover_flags s).last_hit = s.last_hit ∧
    (_update_cover_flags s).unconscious = s.unconscious ∧
    (_update_cover_flags s).active = s.active := by
  have h1 : ∀ (x : DuelState) (v : ℤ),
      (_update_cover_one x v).a = x.a ∧ (_update_cover_one x v).b = x.b ∧
      (_update_cover_one x v).posA = x.posA ∧ (_update_cover_one x v).posB = x.posB ∧
      (_update_cover_one x v).turn_id = x.turn_id ∧
      (_update_cover_one x v).turn_tick = x.turn_tick ∧
      (_update_cover_one x v).skip_turn_for = x.skip_turn_for ∧
      (_update_cover_one x v).grenades_pending = x.grenades_pending ∧
      (_update_cover_one x v).choking = x.choking ∧
      (_update_cover_one x v).grappling = x.grappling ∧
      (_update_cover_one x v).full_log_lines = x.full_log_lines ∧
      (_update_cover_one x v).last_hit = x.last_hit ∧
      (_update_cover_one x v).unconscious = x.unconscious ∧
      (_update_cover_one x v).active = x.active := by
    intro x v
    simp only [_update_cover_one]
    rcases x.cover_line (iclamp (posOf x v) 0 (x.vis_segments - 1)) with _ | tok
    · simp
    · simp only []
      split_ifs <;> simp
  unfold _update_cover_flags
  refine ⟨?_, ?_, ?_, ?_, ?_, ?_, ?_, ?_, ?_, ?_, ?_, ?_, ?_, ?_⟩ <;>
    simp [ (h1 _ _).1, (h1 _ _).2.1, (h1 _ _).2.2.1, (h1 _ _).2.2.2.1,
      (h1 _ _).2.2.2.2.1, (h1 _ _).2.2.2.2.2.1, (h1 _ _).2.2.2.2.2.2.1,
      (h1 _ _).2.2.2.2.2.2.2.1, (h1 _ _).2.2.2.2.2.2.2.2.1,
      (h1 _ _).2.2.2.2.2.2.2.2.2.1, (h1 _ _).2.2.2.2.2.2.2.2.2.2.1,
      (h1 _ _).2.2.2.2.2.2.2.2.2.2.2.1, (h1 _ _).2.2.2.2.2.2.2.2.2.2.2.2.1,
      (h1 _ _).2.2.2.2.2.2.2.2.2.2.2.2.2 ]

/-- The scheduler appends nothing when the incoming combatant is not
flagged to skip. -/
theorem sched_log_noskip (y : DuelState)
    (hskip : y.skip_turn_for (if y.turn_id ^^^ 1 = 0 then y.a else y.b).user_id = false) :
    (endTurnSched y).full_log_lines = y.full_log_lines := by
  simp only [endTurnSched, schedFlip, current]
  split_ifs <;> simp_all [add_raw]

/-- A line already in the full log survives `endTurnSched`. -/
theorem sched_log_mono (y : DuelState) (m : String) (h : m ∈ y.full_log_lines) :
    m ∈ (endTurnSched y).full_log_lines := by
  simp only [endTurnSched, schedFlip, current]
  split_ifs <;> simp_all [add_raw]

/-- With no skip flag and no choke, `end_turn` appends nothing to the log. -/
theorem end_turn_log_quiet (y : DuelState) (bd fd : ℤ)
    (hch : y.choking = none)
    (hskip : y.skip_turn_for (if y.turn_id ^^^ 1 = 0 then y.a else y.b).user_id = false) :
    (end_turn y bd fd).full_log_lines = y.full_log_lines := by
  unfold end_turn
  have hcho' : (endTurnSched y).choking = none := by rw [(sched_pres y).2.2.1, hch]
  have hid : _apply_choke_tick (endTurnSched y) bd fd = endTurnSched y := by
    simp [_apply_choke_tick, hcho']
  rw [(expire_pres _).2.2.2.2.2.2.2.2.2.2.2.2.2.2.2.2.2.1, hid,
    sched_log_noskip y hskip]

/-- A line already in the full log survives `end_turn`. -/
theorem end_turn_log_mono (y : DuelState) (bd fd : ℤ) (m : String)
    (h : m ∈ y.full_log_lines) : m ∈ (end_turn y bd fd).full_log_lines := by
  unfold end_turn
  rw [(expire_pres _).2.2.2.2.2.2.2.2.2.2.2.2.2.2.2.2.2.1]
  exact choke_log_mono _ bd fd m (sched_log_mono y m h)

/-- The AI advance fallback (movement, trail, cover flags, log line and
`end_turn`) moves the actor like `micro_move`, deals no damage, bumps the
tick once and logs the advance. -/
theorem aiFallback_spec (s : DuelState) (step bd fd : ℤ)
    (h01 : s.turn_id = 0 ∨ s.turn_id = 1)
    (hskip : s.skip_turn_for (other s).user_id = false) :
    (end_turn (push (_update_cover_flags (_mark_trail
        (micro_move s (current s).user_id step) (current s).user_id))
        (s!"🤖 {(current s).name} advances **{step} meters**.")) bd fd).posA =
      (micro_move s (current s).user_id step).posA ∧
    (end_turn (push (_update_cover_flags (_mark_trail
        (micro_move s (current s).user_id step) (current s).user_id))
        (s!"🤖 {(current s).name} advances **{step} meters**.")) bd fd).posB =
      (micro_move s (current s).user_id step).posB ∧
    (end_turn (push (_update_cover_flags (_mark_trail
        (micro_move s (current s).user_id step) (current s).user_id))
        (s!"🤖 {(current s).name} advances **{step} meters**.")) bd fd).a.hp = s.a.hp ∧
    (end_turn (push (_update_cover_flags (_mark_trail
        (micro_move s (current s).user_id step) (current s).user_id))
        (s!"🤖 {(current s).name} advances **{step} meters**.")) bd fd).b.hp = s.b.hp ∧
    (end_turn (push (_update_cover_flags (_mark_trail
        (micro_move s (current s).user_id step) (current s).user_id))
        (s!"🤖 {(current s).name} advances **{step} meters**.")) bd fd).turn_tick =
      s.turn_tick + 1 ∧
    (s!"🤖 {(current s).name} advances **{step} meters**.")
      ∈ (end_turn (push (_update_cover_flags (_mark_trail
        (micro_move s (current s).user_id step) (current s).user_id))
        (s!"🤖 {(current s).name} advances **{step} meters**.")) bd fd).full_log_lines := by
  have hcur2 : (if s.turn_id ^^^ 1 = 0 then s.a else s.b) = other s := by
    rcases h01 with h | h <;> simp [other, h]
  obtain ⟨ta, tb, tpA, tpB, tti, ttk, tsk, tgren, tcho, tgrap, tlog, tlh, tunc, tact⟩ :=
    mark_trail_pres (micro_move s (current s).user_id step) (current s).user_id
  obtain ⟨ua, ub, upA, upB, uti, utk, usk, ugren, ucho, ugrap, ulog, ulh, uunc, uact⟩ :=
    cover_flags_pres (_mark_trail (micro_move s (current s).user_id step) (current s).user_id)
  obtain ⟨ma, mb, mti, mtk, msk, mgren, mact, munc, mlh, mvs⟩ :=
    micro_move_pres s (current s).user_id step
  set Y := push (_update_cover_flags (_mark_trail
    (micro_move s (current s).user_id step) (current s).user_id))
    (s!"🤖 {(current s).name} advances **{step} meters**.") with hY
  have hYa : Y.a = s.a := by rw [hY]; show (_update_cover_flags _).a = s.a; rw [ua, ta, ma]
  have hYb : Y.b = s.b := by rw [hY]; show (_update_cover_flags _).b = s.b; rw [ub, tb, mb]
  have hYti : Y.turn_id = s.turn_id := by
    rw [hY]; show (_update_cover_flags _).turn_id = s.turn_id; rw [uti, tti, mti]
  have hYtk : Y.turn_tick = s.turn_tick := by
    rw [hY]; show (_update_cover_flags _).turn_tick = s.turn_tick; rw [utk, ttk, mtk]
  have hYsk : Y.skip_turn_for = s.skip_turn_for := by
    rw [hY]; show (_update_cover_flags _).skip_turn_for = s.skip_turn_for
    rw [usk, tsk, msk]
  have hYpA : Y.posA = (micro_move s (current s).user_id step).posA := by
    rw [hY]; show (_update_cover_flags _).posA = _; rw [upA, tpA]
  have hYpB : Y.posB = (micro_move s (current s).user_id step).posB := by
    rw [hY]; show (_update_cover_flags _).posB = _; rw [upB, tpB]
  have hYskip : Y.skip_turn_for
      (if Y.turn_id ^^^ 1 = 0 then Y.a else Y.b).user_id = false := by
    rw [hYsk, hYti, hYa, hYb, hcur2]
    exact hskip
  have h01Y : Y.turn_id = 0 ∨ Y.turn_id = 1 := by rw [hYti]; exact h01
  obtain ⟨y1, y2, y3, y4, y5⟩ := sched_spec Y h01Y
  rw [hYskip] at y2
  have hApA : (end_turn Y bd fd).posA = Y.posA := by
    unfold end_turn
    rw [(expire_pres _).2.2.2.2.2.2.2.2.2.2.1, (choke_tick_pres _ _ _).2.2.2.2.2.2.2.2.2.2.1,
      (sched_pres _).2.2.2.2.2.2.2.1]
  have hApB : (end_turn Y bd fd).posB = Y.posB := by
    unfold end_turn
    rw [(expire_pres _).2.2.2.2.2.2.2.2.2.2.2.1,
      (choke_tick_pres _ _ _).2.2.2.2.2.2.2.2.2.2.2.1,
      (sched_pres _).2.2.2.2.2.2.2.2.1]
  have hAtk : (end_turn Y bd fd).turn_tick = (endTurnSched Y).turn_tick := by
    unfold end_turn
    rw [(expire_pres _).2.2.2.2.1, (choke_tick_pres _ _ _).2.2.2.2.1]
  refine ⟨?_, ?_, ?_, ?_, ?_, ?_⟩
  · rw [hApA, hYpA]
  · rw [hApB, hYpB]
  · rw [(end_turn_hp _ _ _).1, hYa]
  · rw [(end_turn_hp _ _ _).2, hYb]
  · rw [hAtk, y2, hYtk]
    simp
  · exact end_turn_log_mono _ bd fd _ (by
      rw [hY]
      show _ ∈ (_update_cover_flags _).full_log_lines ++ _
      exact List.mem_append_right _ (List.mem_singleton.mpr rfl))

/-- Claim C8: on a failed weapon resolution (`no_weapon_too_far`) a
player-driven Attack appends the descriptive message, deals no damage and
still ends the turn through the normal flow, while the AI converts the same
condition — and likewise a ready Fists calc at a gate where fists are
disallowed (`_fists_too_far`) — into a 1-2 step advance toward the opponent
instead of a wasted attack. -/
theorem no_weapon_player_vs_ai (s : DuelState) (kit : CombatKit) (atk dfn : Stats)
    (roll dfnArmor : ℚ) (step bd fd : ℤ) (m : String) (mods : Mods)
    (sF : DuelState) (kitF : CombatKit) (slotF : String) (wpF : WeaponProfile)
    (accF dmgF : ℤ) (modsF : Mods)
    (h01 : s.turn_id = 0 ∨ s.turn_id = 1)
    (hactive : s.active = true)
    (hgrap : s.grappling = false)
    (hchoke : s.choking = none)
    (hpend : s.grenades_pending (current s).user_id = none)
    (hskip : s.skip_turn_for (other s).user_id = false)
    (hstep : 1 ≤ step ∧ step ≤ 2)
    (hcalc : compute_attack_numbers kit (rg_to_loadout_range (rngate s)) =
      .notReady "no_weapon_too_far" m mods)
    (h01F : sF.turn_id = 0 ∨ sF.turn_id = 1)
    (hskipF : sF.skip_turn_for (other sF).user_id = false)
    (hcalcF : compute_attack_numbers kitF (rg_to_loadout_range (rngate sF)) =
      .ready slotF wpF accF dmgF modsF)
    (hwpF : wpF.name = "Fists")
    (hfarF : _fists_too_far sF = true) :
    (btn_attack s dfnArmor kit atk dfn roll bd fd).a.hp = s.a.hp ∧
    (btn_attack s dfnArmor kit atk dfn roll bd fd).b.hp = s.b.hp ∧
    (btn_attack s dfnArmor kit atk dfn roll bd fd).turn_id = s.turn_id ^^^ 1 ∧
    (btn_attack s dfnArmor kit atk dfn roll bd fd).turn_tick = s.turn_tick + 1 ∧
    (btn_attack s dfnArmor kit atk dfn roll bd fd).full_log_lines =
      s.full_log_lines ++ [m] ∧
    (_ai_ranged_phase s kit atk dfn roll step bd fd).posA =
      (micro_move s (current s).user_id step).posA ∧
    (_ai_ranged_phase s kit atk dfn roll step bd fd).posB =
      (micro_move s (current s).user_id step).posB ∧
    (_ai_ranged_phase s kit atk dfn roll step bd fd).a.hp = s.a.hp ∧
    (_ai_ranged_phase s kit atk dfn roll step bd fd).b.hp = s.b.hp ∧
    (_ai_ranged_phase s kit atk dfn roll step bd fd).turn_tick = s.turn_tick + 1 ∧
    (s!"🤖 {(current s).name} advances **{step} meters**.")
      ∈ (_ai_ranged_phase s kit atk dfn roll step bd fd).full_log_lines ∧
    (_ai_ranged_phase sF kitF atk dfn roll step bd fd).posA =
      (micro_move sF (current sF).user_id step).posA ∧
    (_ai_ranged_phase sF kitF atk dfn roll step bd fd).posB =
      (micro_move sF (current sF).user_id step).posB ∧
    (_ai_ranged_phase sF kitF atk dfn roll step bd fd).a.hp = sF.a.hp ∧
    (_ai_ranged_phase sF kitF atk dfn roll step bd fd).b.hp = sF.b.hp ∧
    (_ai_ranged_phase sF kitF atk dfn roll step bd fd).turn_tick = sF.turn_tick + 1 ∧
    (s!"🤖 {(current sF).name} advances **{step} meters**.")
      ∈ (_ai_ranged_phase sF kitF atk dfn roll step bd fd).full_log_lines := by
  have hcur2 : (if s.turn_id ^^^ 1 = 0 then s.a else s.b) = other s := by
    rcases h01 with h | h <;> simp [other, h]
  have hcomb : combatantAt s (decide (s.turn_id = 0)) = current s := by
    by_cases h0 : s.turn_id = 0 <;> simp [combatantAt, current, h0]
  have hres : _resolve_pending_grenade s (decide (s.turn_id = 0)) dfnArmor = s := by
    simp only [_resolve_pending_grenade, hcomb, hpend]
  have hatk : _attack_once s kit atk dfn roll = push s m := by
    simp only [_attack_once, hcalc]
  have hbtn : btn_attack s dfnArmor kit atk dfn roll bd fd = end_turn (push s m) bd fd := by
    simp only [btn_attack, hactive, Bool.true_eq_false, if_false, hres, hatk]
  have hXskip : (push s m).skip_turn_for
      (if (push s m).turn_id ^^^ 1 = 0 then (push s m).a else (push s m).b).user_id = false := by
    show s.skip_turn_for (if s.turn_id ^^^ 1 = 0 then s.a else s.b).user_id = false
    rw [hcur2]
    exact hskip
  obtain ⟨x1, x2, x3, x4, x5⟩ := sched_spec (push s m) h01
  rw [hXskip] at x1 x2
  have hEti : (end_turn (push s m) bd fd).turn_id = (endTurnSched (push s m)).turn_id := by
    unfold end_turn
    rw [(expire_pres _).2.2.1, (choke_tick_pres _ _ _).2.2.1]
  have hEtk : (end_turn (push s m) bd fd).turn_tick = (endTurnSched (push s m)).turn_tick := by
    unfold end_turn
    rw [(expire_pres _).2.2.2.2.1, (choke_tick_pres _ _ _).2.2.2.2.1]
  have hai : _ai_ranged_phase s kit atk dfn roll step bd fd =
      end_turn (push (_update_cover_flags (_mark_trail
        (micro_move s (current s).user_id step) (current s).user_id))
        (s!"🤖 {(current s).name} advances **{step} meters**.")) bd fd := by
    simp only [_ai_ranged_phase, hcalc]
  have haiF : _ai_ranged_phase sF kitF atk dfn roll step bd fd =
      end_turn (push (_update_cover_flags (_mark_trail
        (micro_move sF (current sF).user_id step) (current sF).user_id))
        (s!"🤖 {(current sF).name} advances **{step} meters**.")) bd fd := by
    simp only [_ai_ranged_phase, hcalcF]
    rw [if_pos ⟨hwpF, hfarF⟩]
  obtain ⟨p1, p2, p3, p4, p5, p6⟩ := aiFallback_spec s step bd fd h01 hskip
  obtain ⟨q1, q2, q3, q4, q5, q6⟩ := aiFallback_spec sF step bd fd h01F hskipF
  refine ⟨?_, ?_, ?_, ?_, ?_, ?_, ?_, ?_, ?_, ?_, ?_, ?_, ?_, ?_, ?_, ?_, ?_⟩
  · rw [hbtn, (end_turn_hp _ _ _).1]
    rfl
  · rw [hbtn, (end_turn_hp _ _ _).2]
    rfl
  · rw [hbtn, hEti, x1]
    simp only [Bool.false_eq_true, if_false]
    rfl
  · rw [hbtn, hEtk, x2]
    simp only [Bool.false_eq_true, if_false]
    rfl
  · rw [hbtn, end_turn_log_quiet (push s m) bd fd hchoke hXskip]
    rfl
  · rw [hai]
    exact p1
  · rw [hai]
    exact p2
  · rw [hai]
    exact p3
  · rw [hai]
    exact p4
  · rw [hai]
    exact p5
  · rw [hai]
    exact p6
  · rw [haiF]
    exact q1
  · rw [haiF]
    exact q2
  · rw [haiF]
    exact q3
  · rw [haiF]
    exact q4
  · rw [haiF]
    exact q5
  · rw [haiF]
    exact q6

/-- Witness for C8: at Mid range with empty weapon slots, the player Attack
leaves both hp totals alone and flips the turn, while the AI branch moves
the AI like a 2-step `micro_move` and deals no damage; at gate CLOSE the
same empty kit resolves to a ready Fists calc with `_fists_too_far` set, and
the AI again moves instead of swinging. -/
theorem no_weapon_player_vs_ai_wit :
    (btn_attack baseState 0 emptyKit evenStats evenStats 0 6 3).a.hp = baseState.a.hp ∧
    (btn_attack baseState 0 emptyKit evenStats evenStats 0 6 3).turn_id =
      baseState.turn_id ^^^ 1 ∧
    (_ai_ranged_phase baseState emptyKit evenStats evenStats 0 2 6 3).posA =
      (micro_move baseState (current baseState).user_id 2).posA ∧
    (_ai_ranged_phase baseState emptyKit evenStats evenStats 0 2 6 3).b.hp =
      baseState.b.hp ∧
    compute_attack_numbers emptyKit (rg_to_loadout_range (rngate c2State)) =
      .ready "unarmed" fistsProfile 80 6 emptyKit.mods ∧
    _fists_too_far c2State = true ∧
    (_ai_ranged_phase c2State emptyKit evenStats evenStats 0 2 6 3).posA =
      (micro_move c2State (current c2State).user_id 2).posA ∧
    (_ai_ranged_phase c2State emptyKit evenStats evenStats 0 2 6 3).b.hp =
      c2State.b.hp := by
  have h := no_weapon_player_vs_ai baseState emptyKit evenStats evenStats 0 0 2 6 3
    "No viable weapon at Mid range. You're unarmed — advance to **Close** to use **Fists**."
    emptyKit.mods c2State emptyKit "unarmed" fistsProfile 80 6 emptyKit.mods
    (Or.inl rfl) rfl rfl rfl rfl rfl (by decide) (by decide)
    (Or.inl rfl) rfl (by decide) rfl (by decide)
  exact ⟨h.1, h.2.2.1, h.2.2.2.2.2.1, h.2.2.2.2.2.2.2.2.1, by decide, by decide,
    h.2.2.2.2.2.2.2.2.2.2.2.1, h.2.2.2.2.2.2.2.2.2.2.2.2.2.2.1⟩

/-- Two states with the same combatant records agree on `combatantAt`. -/
theorem combatantAt_congr (x y : DuelState) (c : Bool)
    (ha : x.a = y.a) (hb : x.b = y.b) : combatantAt x c = combatantAt y c := by
  cases c <;> simp [combatantAt, ha, hb]

/-- `end_turn` never touches the pending-grenade map. -/
theorem end_turn_gren (y : DuelState) (bd fd : ℤ) :
    (end_turn y bd fd).grenades_pending = y.grenades_pending := by
  unfold end_turn
  rw [(expire_pres _).2.2.2.2.2.2.2.1, (choke_tick_pres _ _ _).2.2.2.2.2.2.2.1,
    (sched_pres _).2.2.2.2.2.2.1]

/-- Writing hp on one side leaves the other side's combatant untouched and
replaces only the hp on the written side. -/
theorem setHp_at (x : DuelState) (c : Bool) (v : ℤ) :
    combatantAt (setHp x c v) c = { combatantAt x c with hp := v } ∧
    combatantAt (setHp x c v) (!c) = combatantAt x (!c) := by
  cases c <;> simp [setHp, combatantAt]

/-- Effect of `_resolve_pending_grenade` on the acting combatant when a
grenade is pending: the entry is removed and the recorded damage lands
through grenade-kind armor mitigation, floored at 0. -/
theorem resolve_pending_effect (s : DuelState) (dfnArmor : ℚ) (g : PendingGrenade)
    (hpend : s.grenades_pending (current s).user_id = some g) :
    (_resolve_pending_grenade s (decide (s.turn_id = 0)) dfnArmor).grenades_pending
      (current s).user_id = none ∧
    combatantAt (_resolve_pending_grenade s (decide (s.turn_id = 0)) dfnArmor)
      (decide (s.turn_id = 0)) =
      { current s with hp := max 0 ((current s).hp -
          (apply_armor_reduction dfnArmor g.damage "grenade").1) } ∧
    (_resolve_pending_grenade s (decide (s.turn_id = 0)) dfnArmor).turn_id = s.turn_id ∧
    (_resolve_pending_grenade s (decide (s.turn_id = 0)) dfnArmor).active = s.active := by
  have hcomb : combatantAt s (decide (s.turn_id = 0)) = current s := by
    by_cases h0 : s.turn_id = 0 <;> simp [combatantAt, current, h0]
  by_cases h0 : s.turn_id = 0 <;>
    simp_all [_resolve_pending_grenade, combatantAt, current, hpend, setHp,
      record_hit, push, add_raw, upd]

/-- `_attack_once` never damages the acting combatant and never touches the
pending-grenade map. -/
theorem attack_keeps_attacker (x : DuelState) (kit : CombatKit) (atk dfn : Stats)
    (roll : ℚ) :
    combatantAt (_attack_once x kit atk dfn roll) (decide (x.turn_id = 0)) =
      combatantAt x (decide (x.turn_id = 0)) ∧
    (_attack_once x kit atk dfn roll).grenades_pending = x.grenades_pending := by
  cases hcalc : compute_attack_numbers kit (rg_to_loadout_range (rngate x)) with
  | notReady r msg mods =>
    simp only [_attack_once, hcalc]
    exact ⟨combatantAt_congr _ _ _ rfl rfl, rfl⟩
  | ready slot wp acc dmg mods =>
    simp only [_attack_once, hcalc]
    split_ifs <;>
      by_cases h0 : x.turn_id = 0 <;>
      simp_all [setHp, combatantAt, push, add_raw, record_hit]

/-- The shared tail of Advance/Disengage: movement, trail, cover flags, the
log line and `end_turn` leave the pending-grenade map and both combatant
records alone. -/
theorem moveButton_after (R : DuelState) (cur1 cur2 steps : ℤ) (msg : String) (bd fd : ℤ) :
    (end_turn (push (_update_cover_flags (_mark_trail (micro_move R cur1 steps) cur2))
      msg) bd fd).grenades_pending = R.grenades_pending ∧
    (end_turn (push (_update_cover_flags (_mark_trail (micro_move R cur1 steps) cur2))
      msg) bd fd).a = R.a ∧
    (end_turn (push (_update_cover_flags (_mark_trail (micro_move R cur1 steps) cur2))
      msg) bd fd).b = R.b := by
  obtain ⟨ma, mb, _, _, _, mgren, _, _, _, _⟩ := micro_move_pres R cur1 steps
  obtain ⟨ta, tb, _, _, _, _, _, tgren, _, _, _, _, _, _⟩ :=
    mark_trail_pres (micro_move R cur1 steps) cur2
  obtain ⟨ua, ub, _, _, _, _, _, ugren, _, _, _, _, _, _⟩ :=
    cover_flags_pres (_mark_trail (micro_move R cur1 steps) cur2)
  refine ⟨?_, ?_, ?_⟩
  · rw [end_turn_gren]
    show (_update_cover_flags _).grenades_pending = R.grenades_pending
    rw [ugren, tgren, mgren]
  · rw [(end_turn_hp _ _ _).1]
    show (_update_cover_flags _).a = R.a
    rw [ua, ta, ma]
  · rw [(end_turn_hp _ _ _).2]
    show (_update_cover_flags _).b = R.b
    rw [ub, tb, mb]

/-- Claim C5: `apply_armor_reduction` computes mitigation as
`round(defenderArmor * factor)` with factors melee 0.60, small_ranged 0.80,
large_ranged 0.80, grenade 0.50, and 0.70 for kinds outside the factor
table, clamps it to `[0, damage-1]`, and returns
`(damage - mitigation, mitigation)`; hence for every incoming damage ≥ 1
the applied damage is ≥ 1 and the mitigation is never negative. -/
theorem armor_reduction_spec (dfnArmor : ℚ) (dmg : ℤ) (kind : String)
    (hdmg : 1 ≤ dmg) :
    armorFactor "melee" = 60/100 ∧
    armorFactor "small_ranged" = 80/100 ∧
    armorFactor "large_ranged" = 80/100 ∧
    armorFactor "grenade" = 50/100 ∧
    (kind ≠ "melee" → kind ≠ "small_ranged" → kind ≠ "large_ranged" →
      kind ≠ "ranged" → kind ≠ "grenade" → kind ≠ "none" →
      armorFactor kind = 70/100) ∧
    apply_armor_reduction dfnArmor dmg kind =
      (dmg - iclamp (pyRound (dfnArmor * armorFactor kind)) 0 (dmg - 1),
       iclamp (pyRound (dfnArmor * armorFactor kind)) 0 (dmg - 1)) ∧
    1 ≤ (apply_armor_reduction dfnArmor dmg kind).1 ∧
    0 ≤ (apply_armor_reduction dfnArmor dmg kind).2 := by
  have hmax : max 0 (dmg - 1) = dmg - 1 := by omega
  refine ⟨rfl, rfl, rfl, rfl, ?_, ?_, ?_, ?_⟩
  · intro h1 h2 h3 h4 h5 h6
    simp [armorFactor, h1, h2, h3, h4, h5, h6]
  · simp [apply_armor_reduction, hmax]
  · simp only [apply_armor_reduction, hmax, iclamp]
    omega
  · simp only [apply_armor_reduction, hmax, iclamp]
    omega

/-- Witness for C5: a grenade with recorded damage 35 against armor 10 is
mitigated by 5 and applies 30. -/
theorem armor_reduction_spec_wit :
    (1 : ℤ) ≤ 35 ∧
    apply_armor_reduction 10 35 "grenade" = (30, 5) ∧
    1 ≤ (apply_armor_reduction 10 35 "grenade").1 ∧
    0 ≤ (apply_armor_reduction 10 35 "grenade").2 :=
  ⟨by decide,
   by
    have h : armorFactor "grenade" = 50/100 := rfl
    norm_num [apply_armor_reduction, h, iclamp, pyRound],
   (armor_reduction_spec 10 35 "grenade" (by decide)).2.2.2.2.2.2.1,
   (armor_reduction_spec 10 35 "grenade" (by decide)).2.2.2.2.2.2.2⟩

/-- `expireOne` is idempotent at a fixed tick: entries removed as expired by
a pass are absent for the next pass, and surviving entries all sit strictly
above the tick. -/
theorem expireOne_idem (e : Option (List ℤ)) (st : Option ℤ) (tick : ℤ) :
    expireOne (expireOne e st tick).1 (expireOne e st tick).2 tick =
      expireOne e st tick := by
  by_cases h : e.getD [] = []
  · simp [expireOne, h]
  · by_cases hk : (e.getD []).filter (fun t => decide (tick < t)) = []
    · simp only [expireOne, if_neg h, hk]
      simp
    · have hfil : ((e.getD []).filter (fun t => decide (tick < t))).filter
          (fun t => decide (tick < t)) =
          (e.getD []).filter (fun t => decide (tick < t)) := by
        apply List.filter_eq_self.mpr
        intro x hx
        exact (List.mem_filter.mp hx).2
      simp only [expireOne, if_neg h, if_pos hk]
      simp only [expireOne, Option.getD_some, if_neg hk, hfil, sub_self]
      simp [hk]

/-- A dict write that stores the value already present is a no-op. -/
theorem upd_self {α : Type} (f : ℤ → α) (k : ℤ) : upd f k (f k) = f := by
  funext x
  simp only [upd]
  split_ifs with h
  · subst h; rfl
  · rfl

/-- `_expire_uid` is the identity when the per-uid pair is already a fixed
point of `expireOne`. -/
theorem _expire_uid_noop (s : DuelState) (u : ℤ)
    (h : expireOne (s.clearing_expiries u) (s.clearing_stacks u) s.turn_tick =
      (s.clearing_expiries u, s.clearing_stacks u)) :
    _expire_uid s u = s := by
  show ({ s with
      clearing_expiries := upd s.clearing_expiries u
        (expireOne (s.clearing_expiries u) (s.clearing_stacks u) s.turn_tick).1,
      clearing_stacks := upd s.clearing_stacks u
        (expireOne (s.clearing_expiries u) (s.clearing_stacks u) s.turn_tick).2 } : DuelState) = s
  rw [h]
  rw [upd_self, upd_self]

/-- Claim C9: running the clearing-stack expiry step twice at the same tick
equals running it once — expiry is decided by comparing recorded expiry
ticks with the current absolute tick, never by call count. -/
theorem expire_clearing_idem (s : DuelState) :
    _expire_clearing (_expire_clearing s) = _expire_clearing s := by
  set au := s.a.user_id with hau
  set bu := s.b.user_id with hbu
  have hproj_ce : ∀ (x : DuelState) (u : ℤ), (_expire_uid x u).clearing_expiries =
      upd x.clearing_expiries u
        (expireOne (x.clearing_expiries u) (x.clearing_stacks u) x.turn_tick).1 :=
    fun _ _ => rfl
  have hproj_cs : ∀ (x : DuelState) (u : ℤ), (_expire_uid x u).clearing_stacks =
      upd x.clearing_stacks u
        (expireOne (x.clearing_expiries u) (x.clearing_stacks u) x.turn_tick).2 :=
    fun _ _ => rfl
  have hproj_t : ∀ (x : DuelState) (u : ℤ), (_expire_uid x u).turn_tick = x.turn_tick :=
    fun _ _ => rfl
  set s1 := _expire_uid s au with hs1
  set s2 := _expire_uid s1 bu with hs2
  have hcl : _expire_clearing s = s2 := rfl
  have ht1 : s1.turn_tick = s.turn_tick := rfl
  have ht2 : s2.turn_tick = s.turn_tick := rfl
  have hA : _expire_uid s2 au = s2 := by
    apply _expire_uid_noop
    by_cases hab : au = bu
    · have hce : s2.clearing_expiries au =
          (expireOne (s1.clearing_expiries bu) (s1.clearing_stacks bu) s1.turn_tick).1 := by
        rw [hs2, hproj_ce, hab, hproj_t]
        simp [upd]
      have hcs : s2.clearing_stacks au =
          (expireOne (s1.clearing_expiries bu) (s1.clearing_stacks bu) s1.turn_tick).2 := by
        rw [hs2, hproj_cs, hab, hproj_t]
        simp [upd]
      rw [ht2, hce, hcs, ← ht1]
      rw [expireOne_idem]
    · have hce : s2.clearing_expiries au =
          (expireOne (s.clearing_expiries au) (s.clearing_stacks au) s.turn_tick).1 := by
        rw [hs2, hproj_ce, hproj_t, hs1, hproj_ce]
        simp [upd, hab]
      have hcs : s2.clearing_stacks au =
          (expireOne (s.clearing_expiries au) (s.clearing_stacks au) s.turn_tick).2 := by
        rw [hs2, hproj_cs, hproj_t, hs1, hproj_cs]
        simp [upd, hab]
      rw [ht2, hce, hcs]
      rw [expireOne_idem]
  have hB : _expire_uid s2 bu = s2 := by
    apply _expire_uid_noop
    have hce : s2.clearing_expiries bu =
        (expireOne (s1.clearing_expiries bu) (s1.clearing_stacks bu) s1.turn_tick).1 := by
      rw [hs2, hproj_ce]
      simp [upd]
    have hcs : s2.clearing_stacks bu =
        (expireOne (s1.clearing_expiries bu) (s1.clearing_stacks bu) s1.turn_tick).2 := by
      rw [hs2, hproj_cs]
      simp [upd]
    rw [ht2, hce, hcs, ← ht1]
    rw [expireOne_idem]
  calc _expire_clearing (_expire_clearing s)
      = _expire_uid (_expire_uid s2 au) bu := rfl
    _ = _expire_uid s2 bu := by rw [hA]
    _ = s2 := hB

/-- `_sync_visual_positions` only moves coordinates: phase fields and the
range index are untouched. -/
theorem sync_fields (s : DuelState) (m : Option ℤ) :
    (_sync_visual_positions s m).grappling = s.grappling ∧
    (_sync_visual_positions s m).choking = s.choking ∧
    (_sync_visual_positions s m).range_idx = s.range_idx ∧
    (_sync_visual_positions s m).breath = s.breath ∧
    (_sync_visual_positions s m).bloodflow = s.bloodflow := by
  simp only [_sync_visual_positions]
  split_ifs <;> simp

/-- `_check_grapple_transition` does not move the range index. -/
theorem check_trans_range (s : DuelState) (prev now : RangeGate) (actor : Option ℤ) :
    (_check_grapple_transition s prev now actor).range_idx = s.range_idx := by
  simp only [_check_grapple_transition, add_raw]
  split_ifs <;> rfl

/-- Core of the grapple-break rule: if the new gate is not HANDS, the
transition check forces `grappling := false`, and an active choke is cleared
(choking to `None`, both meters emptied). -/
theorem check_trans_spec (s : DuelState) (prev now : RangeGate) (actor : Option ℤ)
    (hnow : now ≠ RangeGate.HANDS) :
    (_check_grapple_transition s prev now actor).grappling = false ∧
    (s.choking ≠ none →
      (_check_grapple_transition s prev now actor).choking = none ∧
      (_check_grapple_transition s prev now actor).breath = (fun _ => none) ∧
      (_check_grapple_transition s prev now actor).bloodflow = (fun _ => none)) := by
  by_cases hg : s.grappling = true
  · have hcond : s.grappling = true ∧ now ≠ RangeGate.HANDS := ⟨hg, hnow⟩
    by_cases hc : s.choking = none
    · simp [_check_grapple_transition, add_raw, hcond, hc]
    · have : s.choking.isSome = true := Option.isSome_iff_ne_none.mpr hc
      simp [_check_grapple_transition, add_raw, hcond, this]
  · have hg' : s.grappling = false := by
      revert hg; cases s.grappling <;> simp
    have hcond : ¬(s.grappling = true ∧ now ≠ RangeGate.HANDS) := by simp [hg']
    by_cases hc : s.choking = none
    · simp [_check_grapple_transition, add_raw, hcond, hc, hg']
    · have : s.choking.isSome = true := Option.isSome_iff_ne_none.mpr hc
      simp [_check_grapple_transition, add_raw, hcond, this, hg']

/-- Packaged form of the grapple-break rule for a transition invoked with
`now = rngate X`, as both `step_range` and `micro_move` do. -/
theorem check_trans_claim (X : DuelState) (pr : RangeGate) (act : Option ℤ)
    (c0 : Option (ℤ × ℤ)) (hch : X.choking = c0) :
    (rngate (_check_grapple_transition X pr (rngate X) act) ≠ RangeGate.HANDS →
      (_check_grapple_transition X pr (rngate X) act).grappling = false) ∧
    (c0 ≠ none → rngate (_check_grapple_transition X pr (rngate X) act) ≠ RangeGate.HANDS →
      (_check_grapple_transition X pr (rngate X) act).choking = none ∧
      (_check_grapple_transition X pr (rngate X) act).breath = (fun _ => none) ∧
      (_check_grapple_transition X pr (rngate X) act).bloodflow = (fun _ => none)) := by
  have hr : rngate (_check_grapple_transition X pr (rngate X) act) = rngate X := by
    unfold rngate
    rw [check_trans_range]
  constructor
  · intro hne
    rw [hr] at hne
    exact (check_trans_spec X pr (rngate X) act hne).1
  · intro hc hne
    rw [hr] at hne
    refine (check_trans_spec X pr (rngate X) act hne).2 ?_
    rw [hch]
    exact hc

/-- Claim C3: whenever a range-changing operation (`step_range` or
`micro_move`) leaves the duel's range gate at anything other than HANDS,
grappling is false afterwards, and an active choke is cleared in the same
transition (choking `None`, both meters emptied), regardless of which action
caused the range change. Stated under the reachability invariants that an
ongoing grapple implies the gate is HANDS and an active choke implies
grappling. -/
theorem grapple_breaks_on_range_change (s : DuelState) (delta : ℤ)
    (actor : Option ℤ) (actor2 steps : ℤ)
    (hinv : s.grappling = true → rngate s = RangeGate.HANDS)
    (hinv2 : s.choking ≠ none → s.grappling = true) :
    ((rngate (step_range s delta actor) ≠ RangeGate.HANDS →
        (step_range s delta actor).grappling = false) ∧
     (s.choking ≠ none → rngate (step_range s delta actor) ≠ RangeGate.HANDS →
        (step_range s delta actor).choking = none ∧
        (step_range s delta actor).breath = (fun _ => none) ∧
        (step_range s delta actor).bloodflow = (fun _ => none))) ∧
    ((rngate (micro_move s actor2 steps) ≠ RangeGate.HANDS →
        (micro_move s actor2 steps).grappling = false) ∧
     (s.choking ≠ none → rngate (micro_move s actor2 steps) ≠ RangeGate.HANDS →
        (micro_move s actor2 steps).choking = none ∧
        (micro_move s actor2 steps).breath = (fun _ => none) ∧
        (micro_move s actor2 steps).bloodflow = (fun _ => none))) := by
  constructor
  · simp only [step_range]
    exact check_trans_claim _ _ _ _ ((sync_fields _ actor).2.1)
  · by_cases hg : s.grappling = true
    · have hno : micro_move s actor2 steps = s := by simp [micro_move, hg]
      have hH : rngate s = RangeGate.HANDS := hinv hg
      rw [hno]
      exact ⟨fun hne => absurd hH hne, fun _ hne => absurd hH hne⟩
    · have hg' : s.grappling = false := by revert hg; cases s.grappling <;> simp
      by_cases hpart : actor2 ≠ s.a.user_id ∧ actor2 ≠ s.b.user_id
      · have hno : micro_move s actor2 steps = s := by
          simp [micro_move, hg', hpart]
        rw [hno]
        exact ⟨fun _ => hg', fun hc _ => absurd (hinv2 hc) (by simp [hg'])⟩
      · simp only [micro_move, hg', Bool.false_eq_true, if_false, if_neg hpart]
        exact check_trans_claim _ _ _ _ rfl

/-- `_check_grapple_transition` does not move the coordinates or the
visual width. -/
theorem check_trans_pos (s : DuelState) (prev now : RangeGate) (actor : Option ℤ) :
    (_check_grapple_transition s prev now actor).posA = s.posA ∧
    (_check_grapple_transition s prev now actor).posB = s.posB ∧
    (_check_grapple_transition s prev now actor).vis_segments = s.vis_segments := by
  simp only [_check_grapple_transition, add_raw]
  split_ifs <;> exact ⟨rfl, rfl, rfl⟩

/-- Bounds for the `me_pos` update: a mover on the left stays in
`[0, them-1]`; a mover on the right stays in `[them+1, vis-1]`. -/
theorem movedPos_bounds (vis me them steps : ℤ) :
    (0 ≤ me → me < them → them ≤ vis - 1 →
      0 ≤ movedPos vis me them steps true ∧ movedPos vis me them steps true < them) ∧
    (0 ≤ them → them < me → me ≤ vis - 1 →
      them < movedPos vis me them steps false ∧ movedPos vis me them steps false ≤ vis - 1) := by
  by_cases hst : 0 ≤ steps
  · constructor
    · intro h1 h2 h3
      simp only [movedPos, if_pos hst, Bool.false_eq_true, if_true, if_false]
      constructor <;> omega
    · intro h1 h2 h3
      simp only [movedPos, if_pos hst, Bool.false_eq_true, if_true, if_false]
      constructor <;> omega
  · have habs : |steps| = -steps := abs_of_neg (by omega)
    constructor
    · intro h1 h2 h3
      simp only [movedPos, if_neg hst, habs, Bool.false_eq_true, if_true, if_false]
      constructor <;> omega
    · intro h1 h2 h3
      simp only [movedPos, if_neg hst, habs, Bool.false_eq_true, if_true, if_false]
      constructor <;> omega

/-- Claim C4: a `micro_move` by a participant on a non-grappling duel with
distinct in-bounds coordinates keeps the coordinates distinct and in
`[0, vis_segments-1]`, and recomputes `range_idx` from the resulting gap as
`clamp(round(gap/(vis_segments-1) * (N-1)), 0, N-1)` with `N = 5` gates and
Python (banker's) rounding — always a valid gate index. While grappling,
`micro_move` changes nothing. -/
theorem micro_move_invariants (s : DuelState) (actor steps : ℤ)
    (hactor : actor = s.a.user_id ∨ actor = s.b.user_id)
    (hid : s.a.user_id ≠ s.b.user_id) :
    (s.grappling = true → micro_move s actor steps = s) ∧
    (s.grappling = false →
      0 ≤ s.posA → s.posA ≤ s.vis_segments - 1 →
      0 ≤ s.posB → s.posB ≤ s.vis_segments - 1 →
      s.posA ≠ s.posB →
      (micro_move s actor steps).posA ≠ (micro_move s actor steps).posB ∧
      0 ≤ (micro_move s actor steps).posA ∧
      (micro_move s actor steps).posA ≤ s.vis_segments - 1 ∧
      0 ≤ (micro_move s actor steps).posB ∧
      (micro_move s actor steps).posB ≤ s.vis_segments - 1 ∧
      (micro_move s actor steps).range_idx =
        iclamp (pyRound
          ((|(micro_move s actor steps).posB - (micro_move s actor steps).posA| : ℚ) /
            ((s.vis_segments - 1 : ℤ) : ℚ) * 4)) 0 4 ∧
      0 ≤ (micro_move s actor steps).range_idx ∧
      (micro_move s actor steps).range_idx ≤ 4) := by
  constructor
  · intro hg
    simp [micro_move, hg]
  · intro hg h0A h1A h0B h1B hne
    have hvis : 2 ≤ s.vis_segments := by omega
    have hm : max 1 (s.vis_segments - 1) = s.vis_segments - 1 := by omega
    have hlen : ((RANGE_ORDER.length : ℤ) - 1) = 4 := rfl
    have hposA : ∀ (x : DuelState) (pr nw : RangeGate) (act : Option ℤ),
        (_check_grapple_transition x pr nw act).posA = x.posA :=
      fun x pr nw act => (check_trans_pos x pr nw act).1
    have hposB : ∀ (x : DuelState) (pr nw : RangeGate) (act : Option ℤ),
        (_check_grapple_transition x pr nw act).posB = x.posB :=
      fun x pr nw act => (check_trans_pos x pr nw act).2.1
    rcases hactor with ha | hb
    · simp only [micro_move, hg, Bool.false_eq_true, if_false, ha, hlen, hid,
        ne_eq, not_true_eq_false, false_and, and_true, and_false, or_false,
        false_or, if_true, if_false, hposA, hposB, check_trans_range]
      by_cases hor : s.posA < s.posB
      · have hdec : decide (s.posA < s.posB) = true := by simp [hor]
        obtain ⟨g1, g2⟩ :=
          (movedPos_bounds s.vis_segments s.posA s.posB steps).1 h0A hor h1B
        simp only [hdec]
        rw [hm]
        refine ⟨by omega, by omega, by omega, by omega, by omega, by norm_num, ?_, ?_⟩
        · simp only [iclamp]; omega
        · simp only [iclamp]; omega
      · have hBA : s.posB < s.posA := by omega
        have hdec : decide (s.posA < s.posB) = false := by simp [hor]
        obtain ⟨g1, g2⟩ :=
          (movedPos_bounds s.vis_segments s.posA s.posB steps).2 h0B hBA h1A
        simp only [hdec]
        rw [hm]
        refine ⟨by omega, by omega, by omega, by omega, by omega, by norm_num, ?_, ?_⟩
        · simp only [iclamp]; omega
        · simp only [iclamp]; omega
    · have hba : ¬(actor = s.a.user_id) := by rw [hb]; exact fun h => hid h.symm
      have hid' : s.b.user_id = s.a.user_id ↔ False := by
        constructor
        · exact fun h => hid h.symm
        · exact False.elim
      simp only [micro_move, hg, Bool.false_eq_true, if_false, hb, hid',
        ne_eq, not_true_eq_false, false_and, and_true, and_false, or_false,
        false_or, if_true, if_false, hposA, hposB, check_trans_range]
      by_cases hor : s.posB < s.posA
      · have hdec : decide (s.posB < s.posA) = true := by simp [hor]
        obtain ⟨g1, g2⟩ :=
          (movedPos_bounds s.vis_segments s.posB s.posA steps).1 h0B hor h1A
        simp only [hdec]
        rw [hm]
        refine ⟨by omega, by omega, by omega, by omega, by omega, by norm_num [RANGE_ORDER], ?_, ?_⟩
        · simp only [iclamp]; omega
        · simp only [iclamp]; omega
      · have hAB : s.posA < s.posB := by omega
        have hdec : decide (s.posB < s.posA) = false := by simp [hor]
        obtain ⟨g1, g2⟩ :=
          (movedPos_bounds s.vis_segments s.posB s.posA steps).2 h0A hAB h1B
        simp only [hdec]
        rw [hm]
        refine ⟨by omega, by omega, by omega, by omega, by omega, by norm_num [RANGE_ORDER], ?_, ?_⟩
        · simp only [iclamp]; omega
        · simp only [iclamp]; omega

/-- Witness for C4: Alice advancing 2 from the fresh Mid-range state keeps
the invariants and lands on the recomputed gate index. -/
theorem micro_move_invariants_wit :
    baseState.grappling = false ∧ baseState.posA ≠ baseState.posB ∧
    (micro_move baseState 1 2).posA ≠ (micro_move baseState 1 2).posB ∧
    0 ≤ (micro_move baseState 1 2).posA ∧
    (micro_move baseState 1 2).range_idx =
      iclamp (pyRound
        ((|(micro_move baseState 1 2).posB - (micro_move baseState 1 2).posA| : ℚ) /
          ((baseState.vis_segments - 1 : ℤ) : ℚ) * 4)) 0 4 := by
  have h := (micro_move_invariants baseState 1 2 (Or.inl (by decide)) (by decide)).2
    rfl (by decide) (by decide) (by decide) (by decide) (by decide)
  exact ⟨rfl, by decide, h.1, h.2.1, h.2.2.2.2.2.1⟩

/-- Witness for C3: a widening `step_range` out of HANDS on a grappling,
choking state breaks the grapple and clears the choke. -/
theorem grapple_breaks_on_range_change_wit :
    rngate (step_range c3State 1 (some 1)) ≠ RangeGate.HANDS ∧
    (step_range c3State 1 (some 1)).grappling = false ∧
    (step_range c3State 1 (some 1)).choking = none := by
  have hne : rngate (step_range c3State 1 (some 1)) ≠ RangeGate.HANDS := by decide
  have h := grapple_breaks_on_range_change c3State 1 (some 1) 1 (-5)
    (fun _ => by decide) (fun _ => by decide)
  exact ⟨hne, h.1.1 hne, (h.1.2 (by decide) hne).1⟩

/-- Claim C10: `winner` checks hit-point defeat before unconsciousness
(whenever one side's hp ≤ 0 and the other's > 0 the other wins, even if
unconscious); unconsciousness decides only when neither hp condition
applies; `is_draw` treats the two incapacitation causes interchangeably. -/
theorem winner_priority_spec (s : DuelState) :
    (s.a.hp ≤ 0 → 0 < s.b.hp → winner s = some s.b) ∧
    (s.b.hp ≤ 0 → 0 < s.a.hp → winner s = some s.a) ∧
    (¬(s.a.hp ≤ 0 ∧ 0 < s.b.hp) → ¬(s.b.hp ≤ 0 ∧ 0 < s.a.hp) →
      winner s =
        (if s.unconscious s.a.user_id = true ∧ s.unconscious s.b.user_id = false then some s.b
         else if s.unconscious s.b.user_id = true ∧ s.unconscious s.a.user_id = false then some s.a
         else none)) ∧
    (is_draw s = true ↔
      ((s.a.hp ≤ 0 ∨ s.unconscious s.a.user_id = true) ∧
       (s.b.hp ≤ 0 ∨ s.unconscious s.b.user_id = true))) := by
  refine ⟨?_, ?_, ?_, ?_⟩
  · intro h1 h2
    simp [winner, h1, h2]
  · intro h1 h2
    have : ¬(s.a.hp ≤ 0 ∧ 0 < s.b.hp) := by omega
    simp [winner, this, h1, h2]
  · intro h1 h2
    simp only [winner, if_neg h1, if_neg h2]
  · simp [is_draw, Bool.and_eq_true, Bool.or_eq_true, decide_eq_true_eq]

/-- Witness for C10: Alice at 0 hp loses to Bob on the hp check even though
Bob is in the unconscious set. -/
theorem winner_priority_spec_wit :
    c10State.a.hp ≤ 0 ∧ 0 < c10State.b.hp ∧
    c10State.unconscious c10State.b.user_id = true ∧
    winner c10State = some c10State.b :=
  ⟨by decide, by decide, by decide,
   (winner_priority_spec c10State).1 (by decide) (by decide)⟩

/-- `end_turn` keeps both combatant records, hence every `combatantAt`. -/
theorem end_turn_comb (y : DuelState) (bd fd : ℤ) (c : Bool) :
    combatantAt (end_turn y bd fd) c = combatantAt y c :=
  combatantAt_congr _ _ _ (end_turn_hp y bd fd).1 (end_turn_hp y bd fd).2

/-- Rewriting form of `moveButton_after` for the pending-grenade map. -/
theorem moveButton_gren (R : DuelState) (cur1 cur2 steps : ℤ) (msg : String) (bd fd : ℤ) :
    (end_turn (push (_update_cover_flags (_mark_trail (micro_move R cur1 steps) cur2))
      msg) bd fd).grenades_pending = R.grenades_pending :=
  (moveButton_after R cur1 cur2 steps msg bd fd).1

/-- Rewriting form of `moveButton_after` for the combatant records. -/
theorem moveButton_comb (R : DuelState) (cur1 cur2 steps : ℤ) (msg : String) (bd fd : ℤ)
    (c : Bool) :
    combatantAt (end_turn (push (_update_cover_flags (_mark_trail (micro_move R cur1 steps)
      cur2)) msg) bd fd) c = combatantAt R c :=
  combatantAt_congr _ _ _ (moveButton_after R cur1 cur2 steps msg bd fd).2.1
    (moveButton_after R cur1 cur2 steps msg bd fd).2.2

/-- Rewriting form of `attack_keeps_attacker` for the pending-grenade map. -/
theorem attack_gren (x : DuelState) (kit : CombatKit) (atk dfn : Stats) (roll : ℚ) :
    (_attack_once x kit atk dfn roll).grenades_pending = x.grenades_pending :=
  (attack_keeps_attacker x kit atk dfn roll).2

/-- `_attack_once` keeps the acting combatant's record (side given by any
Boolean equal to the turn test). -/
theorem attack_comb (x : DuelState) (kit : CombatKit) (atk dfn : Stats) (roll : ℚ)
    (c : Bool) (hc : c = decide (x.turn_id = 0)) :
    combatantAt (_attack_once x kit atk dfn roll) c = combatantAt x c := by
  subst hc
  exact (attack_keeps_attacker x kit atk dfn roll).1

/-- Claim C1 (amended): on an active duel with a grenade pending on the
acting combatant, the `advance`, `disengage` and `attack` entry points
resolve it first (the entry is removed and the recorded damage lands
through grenade-kind armor mitigation, floored at 0), while `throwGrenade`,
`beginGrapple`, `wrestle`, `punch`, `breakFree`, `choke` and `letGo` leave
the pending entry in place and apply no grenade damage to the actor. The
original claim — that every listed entry point resolves the pending
grenade first — is refuted by the counterexample below. -/
theorem pending_grenade_entry_points (s : DuelState) (g : PendingGrenade) (dfnArmor : ℚ)
    (kit : CombatKit) (atk dfn : Stats) (steps k wdmg pdmg gdmg bd fd : ℤ)
    (rollA rollG rollB rollC tfit tgfit : ℚ) (hasG posSwing : Bool)
    (hactive : s.active = true) (hab : s.a.user_id ≠ s.b.user_id)
    (hpend : s.grenades_pending (current s).user_id = some g) :
    ((btn_advance s dfnArmor steps bd fd).grenades_pending (current s).user_id = none ∧
     (combatantAt (btn_advance s dfnArmor steps bd fd) (decide (s.turn_id = 0))).hp =
       max 0 ((current s).hp - (apply_armor_reduction dfnArmor g.damage "grenade").1)) ∧
    ((btn_disengage s dfnArmor k bd fd).grenades_pending (current s).user_id = none ∧
     (combatantAt (btn_disengage s dfnArmor k bd fd) (decide (s.turn_id = 0))).hp =
       max 0 ((current s).hp - (apply_armor_reduction dfnArmor g.damage "grenade").1)) ∧
    ((btn_attack s dfnArmor kit atk dfn rollA bd fd).grenades_pending
        (current s).user_id = none ∧
     (combatantAt (btn_attack s dfnArmor kit atk dfn rollA bd fd)
        (decide (s.turn_id = 0))).hp =
       max 0 ((current s).hp - (apply_armor_reduction dfnArmor g.damage "grenade").1)) ∧
    ((btn_grenade s hasG rollG gdmg tfit tgfit bd fd).grenades_pending
        (current s).user_id = some g ∧
     (combatantAt (btn_grenade s hasG rollG gdmg tfit tgfit bd fd)
        (decide (s.turn_id = 0))).hp = (current s).hp) ∧
    ((btn_grapple s).grenades_pending (current s).user_id = some g ∧
     (combatantAt (btn_grapple s) (decide (s.turn_id = 0))).hp = (current s).hp) ∧
    ((btn_wrestle s wdmg posSwing bd fd).grenades_pending (current s).user_id = some g ∧
     (combatantAt (btn_wrestle s wdmg posSwing bd fd) (decide (s.turn_id = 0))).hp =
       (current s).hp) ∧
    ((btn_punch s pdmg bd fd).grenades_pending (current s).user_id = some g ∧
     (combatantAt (btn_punch s pdmg bd fd) (decide (s.turn_id = 0))).hp = (current s).hp) ∧
    ((btn_breakfree s rollB bd fd).grenades_pending (current s).user_id = some g ∧
     (combatantAt (btn_breakfree s rollB bd fd) (decide (s.turn_id = 0))).hp =
       (current s).hp) ∧
    ((btn_choke s rollC bd fd).grenades_pending (current s).user_id = some g ∧
     (combatantAt (btn_choke s rollC bd fd) (decide (s.turn_id = 0))).hp =
       (current s).hp) ∧
    ((btn_letgo s bd fd).grenades_pending (current s).user_id = some g ∧
     (combatantAt (btn_letgo s bd fd) (decide (s.turn_id = 0))).hp = (current s).hp) := by
  obtain ⟨r1, r2, r3, r4⟩ := resolve_pending_effect s dfnArmor g hpend
  have hcomb : combatantAt s (decide (s.turn_id = 0)) = current s := by
    by_cases h0 : s.turn_id = 0 <;> simp [combatantAt, current, h0]
  have hco : (other s).user_id ≠ (current s).user_id := by
    by_cases h0 : s.turn_id = 0 <;> simp [current, other, h0] <;> omega
  refine ⟨⟨?_, ?_⟩, ⟨?_, ?_⟩, ⟨?_, ?_⟩, ⟨?_, ?_⟩, ⟨?_, ?_⟩, ⟨?_, ?_⟩, ⟨?_, ?_⟩,
    ⟨?_, ?_⟩, ⟨?_, ?_⟩, ⟨?_, ?_⟩⟩
  · simp only [btn_advance, hactive, Bool.true_eq_false, if_false]
    rw [moveButton_gren]
    exact r1
  · simp only [btn_advance, hactive, Bool.true_eq_false, if_false]
    rw [moveButton_comb, r2]
  · simp only [btn_disengage, hactive, Bool.true_eq_false, if_false]
    rw [moveButton_gren]
    exact r1
  · simp only [btn_disengage, hactive, Bool.true_eq_false, if_false]
    rw [moveButton_comb, r2]
  · simp only [btn_attack, hactive, Bool.true_eq_false, if_false]
    rw [end_turn_gren, attack_gren]
    exact r1
  · simp only [btn_attack, hactive, Bool.true_eq_false, if_false]
    rw [end_turn_comb]
    have h2 := attack_comb (_resolve_pending_grenade s (decide (s.turn_id = 0)) dfnArmor)
      kit atk dfn rollA (decide (s.turn_id = 0)) (by rw [r3])
    rw [h2, r2]
  · simp only [btn_grenade, hactive, Bool.true_eq_false, if_false]
    rw [end_turn_gren]
    split_ifs <;> simp [push, add_raw, upd, hco, Ne.symm hco, hpend]
  · simp only [btn_grenade, hactive, Bool.true_eq_false, if_false]
    rw [end_turn_comb]
    split_ifs <;> by_cases h0 : s.turn_id = 0 <;>
      simp [push, add_raw, combatantAt, current, h0]
  · simp only [btn_grapple, hactive, Bool.true_eq_false, if_false]
    split_ifs with hcg
    · exact hpend
    · simp [begin_grapple, hcg, add_raw, hpend]
  · simp only [btn_grapple, hactive, Bool.true_eq_false, if_false]
    split_ifs with hcg
    · by_cases h0 : s.turn_id = 0 <;> simp [combatantAt, current, h0]
    · by_cases h0 : s.turn_id = 0 <;>
        simp [begin_grapple, hcg, add_raw, combatantAt, current, h0]
  · by_cases hgg : grappleGuard s = false
    · simp [btn_wrestle, hgg, hpend]
    · have hgg' : grappleGuard s = true := by revert hgg; cases grappleGuard s <;> simp
      simp only [btn_wrestle, hgg', Bool.true_eq_false, if_false]
      rw [end_turn_gren]
      by_cases h0 : s.turn_id = 0 <;> split_ifs <;>
        simp [setHp, record_hit, push, add_raw, h0, hpend]
  · by_cases hgg : grappleGuard s = false
    · simp [btn_wrestle, hgg]
      by_cases h0 : s.turn_id = 0 <;> simp [combatantAt, current, h0]
    · have hgg' : grappleGuard s = true := by revert hgg; cases grappleGuard s <;> simp
      simp only [btn_wrestle, hgg', Bool.true_eq_false, if_false]
      rw [end_turn_comb]
      by_cases h0 : s.turn_id = 0 <;> split_ifs <;>
        simp [setHp, record_hit, push, add_raw, combatantAt, current, h0]
  · by_cases hgg : grappleGuard s = false
    · simp [btn_punch, hgg, hpend]
    · have hgg' : grappleGuard s = true := by revert hgg; cases grappleGuard s <;> simp
      simp only [btn_punch, hgg', Bool.true_eq_false, if_false]
      rw [end_turn_gren]
      by_cases h0 : s.turn_id = 0 <;>
        simp [setHp, record_hit, push, add_raw, h0, hpend]
  · by_cases hgg : grappleGuard s = false
    · simp [btn_punch, hgg]
      by_cases h0 : s.turn_id = 0 <;> simp [combatantAt, current, h0]
    · have hgg' : grappleGuard s = true := by revert hgg; cases grappleGuard s <;> simp
      simp only [btn_punch, hgg', Bool.true_eq_false, if_false]
      rw [end_turn_comb]
      by_cases h0 : s.turn_id = 0 <;>
        simp [setHp, record_hit, push, add_raw, combatantAt, current, h0]
  · by_cases hgg : grappleGuard s = false
    · simp [btn_breakfree, hgg, hpend]
    · have hgg' : grappleGuard s = true := by revert hgg; cases grappleGuard s <;> simp
      simp only [btn_breakfree, hgg', Bool.true_eq_false, if_false]
      rw [end_turn_gren]
      split_ifs <;> simp [push, add_raw, hpend]
  · by_cases hgg : grappleGuard s = false
    · simp [btn_breakfree, hgg]
      by_cases h0 : s.turn_id = 0 <;> simp [combatantAt, current, h0]
    · have hgg' : grappleGuard s = true := by revert hgg; cases grappleGuard s <;> simp
      simp only [btn_breakfree, hgg', Bool.true_eq_false, if_false]
      rw [end_turn_comb]
      split_ifs <;> by_cases h0 : s.turn_id = 0 <;>
        simp [push, add_raw, combatantAt, current, h0]
  · by_cases hgg : grappleGuard s = false
    · simp [btn_choke, hgg, hpend]
    · have hgg' : grappleGuard s = true := by revert hgg; cases grappleGuard s <;> simp
      simp only [btn_choke, hgg', Bool.true_eq_false, if_false]
      rw [end_turn_gren]
      split_ifs <;> simp [push, add_raw, hpend]
  · by_cases hgg : grappleGuard s = false
    · simp [btn_choke, hgg]
      by_cases h0 : s.turn_id = 0 <;> simp [combatantAt, current, h0]
    · have hgg' : grappleGuard s = true := by revert hgg; cases grappleGuard s <;> simp
      simp only [btn_choke, hgg', Bool.true_eq_false, if_false]
      rw [end_turn_comb]
      split_ifs <;> by_cases h0 : s.turn_id = 0 <;>
        simp [push, add_raw, combatantAt, current, h0]
  · by_cases hcg : chokeGuard s = false
    · simp [btn_letgo, hcg, hpend]
    · have hcg' : chokeGuard s = true := by revert hcg; cases chokeGuard s <;> simp
      simp only [btn_letgo, hcg', Bool.true_eq_false, if_false]
      rw [end_turn_gren]
      simp [push, add_raw, hpend]
  · by_cases hcg : chokeGuard s = false
    · simp [btn_letgo, hcg]
      by_cases h0 : s.turn_id = 0 <;> simp [combatantAt, current, h0]
    · have hcg' : chokeGuard s = true := by revert hcg; cases chokeGuard s <;> simp
      simp only [btn_letgo, hcg', Bool.true_eq_false, if_false]
      rw [end_turn_comb]
      by_cases h0 : s.turn_id = 0 <;> simp [push, add_raw, combatantAt, current, h0]

/-- Claim C1 counterexample: on an active duel with a grenade (damage 35,
no armor on the actor so 35 would land) pending on Alice, pressing
`throwGrenade` with no grenade in the loadout leaves the pending entry in
place and Alice's hit points untouched — the entry point does not resolve
the pending grenade first as the claim states for every listed action. -/
theorem pending_grenade_entry_points_cex :
    c1State.active = true ∧
    (current c1State).user_id = 1 ∧
    c1State.grenades_pending 1 = some ⟨2, 35⟩ ∧
    (btn_grenade c1State false 0 35 10 10 6 3).grenades_pending 1 = some ⟨2, 35⟩ ∧
    (btn_grenade c1State false 0 35 10 10 6 3).a.hp = 100 := by
  refine ⟨rfl, rfl, rfl, ?_, ?_⟩ <;> rfl

/-- Witness for the amended C1 at a concrete state with a pending grenade. -/
theorem pending_grenade_entry_points_wit :
    c1State.active = true ∧ c1State.a.user_id ≠ c1State.b.user_id ∧
    c1State.grenades_pending (current c1State).user_id = some ⟨2, 35⟩ ∧
    ((btn_advance c1State 0 2 6 3).grenades_pending (current c1State).user_id = none ∧
     (combatantAt (btn_advance c1State 0 2 6 3) (decide (c1State.turn_id = 0))).hp =
       max 0 ((current c1State).hp -
         (apply_armor_reduction 0 (PendingGrenade.mk 2 35).damage "grenade").1)) :=
  ⟨rfl, by decide, rfl,
    (pending_grenade_entry_points c1State ⟨2, 35⟩ 0 emptyKit evenStats evenStats
      2 1 1 3 35 6 3 (1/2) (1/2) (1/2) (1/2) 10 10 false false rfl (by decide) rfl).1⟩

end Lowlife
